import Mathlib

/-!
Verification development for the 2D physics core of TkInterAction2D.

Namespace `MainPy` embeds `src/main.py` (the force/mass engine with
friction and a standalone penetration-resolution phase); namespace
`MoveInAir` embeds `src/main_9_move_in_air.py` (the velocity engine with
air control and per-body resolution guarded by a pre-update overlap
check).

Modelling conventions:
* coordinates, sizes, velocities, forces and times are rationals;
* the Python contact slots hold aliases to fixed bodies; fixed bodies
  are never mutated, so a slot is embedded as the index (`Option Nat`)
  of the fixed body in the world list;
* the `while` loop of the penetration resolver is modelled by
  `resolveLoop fuel`, which runs at most `fuel` iterations of the loop
  body; a Python run that exits after `k` iterations is reproduced
  exactly by any `fuel ≥ k`, and a configuration on which every `fuel`
  is still overlapping corresponds to a Python run that never leaves
  the `while` loop;
* `a / b` on rationals is total with `a / 0 = 0`, whereas Python raises
  `ZeroDivisionError` on the integrator's `fx / m` when `m = 0`; no
  theorem below relies on the value of a division with zero divisor;
* `get_object_by_tag` raises `ValueError` when no body carries the tag;
  at its single call site inside the tick nothing has been mutated by
  that phase yet when it raises, so the embedded phase returns the list
  unchanged in that case.
-/

/-- Index of the first element of `l` satisfying `p` (the embedding of
the first-match linear scans `get_object_by_tag` and the `for` loop of
`find_obstacle`). -/
def firstIdxP {α : Type} (p : α → Bool) : List α → Option Nat
  | [] => none
  | a :: l => if p a then some 0 else (firstIdxP p l).map (· + 1)

namespace MainPy

/-- Body record of `src/main.py` (the `Solid` dataclass).  The four
entries of the `obstacle_on_surface` list appear as the fields
`sXPos`, `sXNeg`, `sYPos`, `sYNeg` (indices `X_POS = 0`, `X_NEG = 1`,
`Y_POS = 2`, `Y_NEG = 3`), each holding the index of the touching
fixed body in the world list. -/
structure Solid where
  tag : String
  x : ℚ
  y : ℚ
  w : ℚ
  h : ℚ
  fixed : Bool
  color : String
  vx : ℚ
  vy : ℚ
  m : ℚ
  fx : ℚ
  fy : ℚ
  friction_x : ℚ
  friction_y : ℚ
  sXPos : Option Nat
  sXNeg : Option Nat
  sYPos : Option Nat
  sYNeg : Option Nat
deriving DecidableEq

/-- Default body used only for out-of-range list lookups.  Its slots
are empty, it is fixed, and its tag is empty, so it never triggers any
movable-body branch; its numeric defaults mirror the dataclass
defaults (`m = 1`, `friction_x = 0.3`, `friction_y = 0`). -/
instance : Inhabited Solid :=
  ⟨{ tag := "", x := 0, y := 0, w := 0, h := 0, fixed := true, color := "",
     vx := 0, vy := 0, m := 1, fx := 0, fy := 0,
     friction_x := 3/10, friction_y := 0,
     sXPos := none, sXNeg := none, sYPos := none, sYNeg := none }⟩

def G : ℚ := 12
def PLAYER_MOVE_POWER : ℚ := 200
def PLAYER_JUMP_POWER : ℚ := 400
def COLLIDE_EPSILON : ℚ := 1
def COLLIDE_SOLVE_FACTOR : ℚ := 1/500

/-- `collide` of `src/main.py`: strict overlap of the centered
rectangles. -/
def collide (o1 o2 : Solid) : Bool :=
  decide (|o1.x + o1.w / 2 - (o2.x + o2.w / 2)| < (o1.w + o2.w) / 2)
  && decide (|o1.y + o1.h / 2 - (o2.y + o2.h / 2)| < (o1.h + o2.h) / 2)

/-- The axis argument (`"x"` or `"y"`) of `find_obstacle`. -/
inductive Axis
  | x
  | y
deriving DecidableEq

/-- Displace a body by `d` along an axis (the `setattr` probe of
`find_obstacle`). -/
def shiftBy (o : Solid) (axis : Axis) (d : ℚ) : Solid :=
  match axis with
  | Axis.x => { o with x := o.x + d }
  | Axis.y => { o with y := o.y + d }

/-- `find_obstacle` of `src/main.py`: first fixed body that the probe
copy newly overlaps, where a bridge is skipped whenever the probed
body's vertical velocity is negative. -/
def find_obstacle (objs : List Solid) (obj : Solid) (axis : Axis) (sign : ℚ) :
    Option Nat :=
  firstIdxP (fun f =>
    f.fixed
    && !(f.tag == "bridge" && decide (obj.vy < 0))
    && !collide obj f
    && collide (shiftBy obj axis (sign * COLLIDE_EPSILON)) f) objs

/-- The same sensor search with the bridge rule removed: every fixed
body, bridge or block alike, is a candidate.  Comparison definition
used to state exactly when `find_obstacle` treats a bridge like a
block. -/
def find_obstacle_any (objs : List Solid) (obj : Solid) (axis : Axis) (sign : ℚ) :
    Option Nat :=
  firstIdxP (fun f =>
    f.fixed
    && !collide obj f
    && collide (shiftBy obj axis (sign * COLLIDE_EPSILON)) f) objs

/-- Sensing pass body update (`main_physics`, contact block): the four
slots are recomputed for every movable body. -/
def senseBody (objs : List Solid) (o : Solid) : Solid :=
  if o.fixed then o else
  { o with
    sXPos := find_obstacle objs o Axis.x 1
    sXNeg := find_obstacle objs o Axis.x (-1)
    sYPos := find_obstacle objs o Axis.y 1
    sYNeg := find_obstacle objs o Axis.y (-1) }

/-- Sensing pass over the world.  `find_obstacle` reads only geometry
and `vy` of the probed body and of the fixed bodies, none of which the
pass writes, so the sequential in-place Python loop equals this map. -/
def senseAll (objs : List Solid) : List Solid := objs.map (senseBody objs)

/-- Gravity injection: `fy += m * G` for movable bodies with no
`Y_POS` contact. -/
def gravityBody (o : Solid) : Solid :=
  if o.fixed then o else
  if o.sYPos.isSome then o else { o with fy := o.fy + o.m * G }

def gravityPhase (objs : List Solid) : List Solid := objs.map gravityBody

def isPlayerTag (o : Solid) : Bool := o.tag == "player"

/-- The force injection applied to the player body: jump and move
forces when grounded (`Y_POS` contact present), a small air-control
force otherwise. -/
def playerBody (jump : Bool) (move : ℚ) (pl : Solid) : Solid :=
  if pl.sYPos.isSome then
    let pl1 := if jump then { pl with fy := pl.fy - PLAYER_JUMP_POWER } else pl
    if move = 0 then pl1
    else { pl1 with fx := pl1.fx + PLAYER_MOVE_POWER * move }
  else
    if move = 0 then pl
    else { pl with fx := pl.fx + PLAYER_MOVE_POWER * move / |move| * (1/50) }

/-- Player intent phase of `main_physics`: the first body tagged
`"player"` receives jump/move forces.  When the tag is absent the
Python raises before mutating anything, so the list is returned
unchanged. -/
def playerPhase (jump : Bool) (move : ℚ) (objs : List Solid) : List Solid :=
  match firstIdxP isPlayerTag objs with
  | none => objs
  | some p => objs.set p (playerBody jump move (objs.getD p default))

/-- Acceleration from the pending force (`F = ma` solved for `a`),
force reset, Euler velocity update. -/
def accelBody (o : Solid) : Solid :=
  { o with vx := o.vx + o.fx / o.m, vy := o.vy + o.fy / o.m, fx := 0, fy := 0 }

/-- First clamp: `if obstacle_on_surface[X_POS] and vx > 0: vx = 0`. -/
def clampXPos (o : Solid) : Solid :=
  if o.sXPos.isSome ∧ 0 < o.vx then { o with vx := 0 } else o

/-- Second clamp, for `X_NEG` and `vx < 0`. -/
def clampXNeg (o : Solid) : Solid :=
  if o.sXNeg.isSome ∧ o.vx < 0 then { o with vx := 0 } else o

/-- Third clamp, for `Y_POS` and `vy > 0`. -/
def clampYPos (o : Solid) : Solid :=
  if o.sYPos.isSome ∧ 0 < o.vy then { o with vy := 0 } else o

/-- Fourth clamp, for `Y_NEG` and `vy < 0`. -/
def clampYNeg (o : Solid) : Solid :=
  if o.sYNeg.isSome ∧ o.vy < 0 then { o with vy := 0 } else o

/-- Velocity phase body update: acceleration `f / m`, force reset,
Euler velocity update, then the four sequential contact clamps. -/
def velocityBody (o : Solid) : Solid :=
  if o.fixed then o else clampYNeg (clampYPos (clampXNeg (clampXPos (accelBody o))))

def velocityPhase (objs : List Solid) : List Solid := objs.map velocityBody

/-- Python's `a or b` on two contact slots: the left one when present,
otherwise the right one. -/
def firstSome (a b : Option Nat) : Option Nat :=
  match a with
  | some i => some i
  | none => b

/-- Friction phase body update: `vx` is damped by the `friction_x` of
the `Y_POS`-or-`Y_NEG` contact, `vy` by the `friction_y` of the
`X_POS`-or-`X_NEG` contact. -/
def frictionBody (objs : List Solid) (o : Solid) : Solid :=
  if o.fixed then o else
  let o1 :=
    match firstSome o.sYPos o.sYNeg with
    | some i => { o with vx := o.vx * (1 - (objs.getD i default).friction_x) }
    | none => o
  match firstSome o1.sXPos o1.sXNeg with
  | some i => { o1 with vy := o1.vy * (1 - (objs.getD i default).friction_y) }
  | none => o1

def frictionPhase (objs : List Solid) : List Solid := objs.map (frictionBody objs)

/-- Position phase body update: `x += vx Δt; y += vy Δt`. -/
def positionBody (dt : ℚ) (o : Solid) : Solid :=
  if o.fixed then o else { o with x := o.x + o.vx * dt, y := o.y + o.vy * dt }

def positionPhase (dt : ℚ) (objs : List Solid) : List Solid :=
  objs.map (positionBody dt)

/-- One backward step of the penetration resolver. -/
def stepBack (dt : ℚ) (o : Solid) : Solid :=
  { o with x := o.x - o.vx * dt * COLLIDE_SOLVE_FACTOR,
           y := o.y - o.vy * dt * COLLIDE_SOLVE_FACTOR }

/-- The resolver's `while collide: step back` loop, with fuel. -/
def resolveLoop : Nat → ℚ → Solid → Solid → Solid
  | 0, _, o, _ => o
  | fuel + 1, dt, o, f => if collide o f then resolveLoop fuel dt (stepBack dt o) f else o

/-- Resolution of one movable body against one fixed body: skipped
entirely when the fixed body is a bridge and the mover's vertical
velocity is nonpositive, otherwise the backward-stepping loop runs. -/
def resolveOne (fuel : Nat) (dt : ℚ) (o f : Solid) : Solid :=
  if f.tag == "bridge" && decide (o.vy ≤ 0) then o else resolveLoop fuel dt o f

/-- Resolution of one movable body against every fixed body, in list
order (`stepBack` never writes `vy`, so the bridge test of a later
pair sees the same `vy` as in the Python). -/
def resolveBody (fuel : Nat) (dt : ℚ) (objs : List Solid) (o : Solid) : Solid :=
  if o.fixed then o else (objs.filter (fun f => f.fixed)).foldl (resolveOne fuel dt) o

/-- Penetration-resolution phase of `main_physics`.  Fixed bodies are
never written during the phase, so reading the fixed sublist from the
phase-entry world equals the Python's `iter_fixed()` rescans. -/
def resolvePhase (fuel : Nat) (dt : ℚ) (objs : List Solid) : List Solid :=
  objs.map (resolveBody fuel dt objs)

/-- The tick up to and including the velocity clamps (sensing, gravity,
player intents, velocity update).  Named so that properties of the
post-clamp intermediate state can be stated. -/
def midTick (jump : Bool) (move : ℚ) (objs : List Solid) : List Solid :=
  velocityPhase (playerPhase jump move (gravityPhase (senseAll objs)))

/-- One invocation of `main_physics`, with the measured `t_delta`, the
intent flags and the resolver fuel as parameters. -/
def tick (fuel : Nat) (jump : Bool) (move dt : ℚ) (objs : List Solid) : List Solid :=
  resolvePhase fuel dt (positionPhase dt (frictionPhase (midTick jump move objs)))

/-- Every body tagged `"player"` in the world is movable.  This is the
standing assumption of `main_physics`, which looks the player up and
adds intent forces to it; the stage loader constructs exactly one
player with `fixed=False`. -/
def playersMovable (objs : List Solid) : Prop :=
  ∀ b ∈ objs, b.tag = "player" → b.fixed = false

/-- The overlap formula exactly as the specification words it, with
strict inequalities. -/
def overlapsSpecStrict (a b : Solid) : Prop :=
  |a.x + a.w / 2 - (b.x + b.w / 2)| < (a.w + b.w) / 2
  ∧ |a.y + a.h / 2 - (b.y + b.h / 2)| < (a.h + b.h) / 2

/-- `n` consecutive ticks with per-tick intents and time deltas. -/
def tickN (fuel : Nat) (jumps : Nat → Bool) (moves dts : Nat → ℚ) :
    Nat → List Solid → List Solid
  | 0, objs => objs
  | n + 1, objs => tickN fuel jumps moves dts n (tick fuel (jumps n) (moves n) (dts n) objs)

end MainPy

namespace MoveInAir

/-- Body record of `src/main_9_move_in_air.py` (`Solid` dataclass with
its `Contact` field flattened into the four slots `cXPos`, `cXNeg`,
`cYPos`, `cYNeg`). -/
structure Solid where
  tag : String
  x : ℚ
  y : ℚ
  w : ℚ
  h : ℚ
  fixed : Bool
  color : String
  vx : ℚ
  vy : ℚ
  cXPos : Option Nat
  cXNeg : Option Nat
  cYPos : Option Nat
  cYNeg : Option Nat
deriving DecidableEq

/-- Default body used only for out-of-range list lookups; fixed, empty
tag, empty slots, so it never triggers a movable-body branch. -/
instance : Inhabited Solid :=
  ⟨{ tag := "", x := 0, y := 0, w := 0, h := 0, fixed := true, color := "",
     vx := 0, vy := 0, cXPos := none, cXNeg := none, cYPos := none, cYNeg := none }⟩

def G : ℚ := 900
def MOVE_VEL : ℚ := 100
def JUMP_VEL : ℚ := 450
def MOVE_VEL_FACTOR_AIR : ℚ := 3/10
def COLLIDE_EPS : ℚ := 1
def COLLIDE_SOLVE_FACTOR : ℚ := 1/100

/-- `collide` of `src/main_9_move_in_air.py`: inclusive overlap of the
centered rectangles (note `<=` where `src/main.py` uses `<`). -/
def collide (o1 o2 : Solid) : Bool :=
  decide (|o1.x + o1.w / 2 - (o2.x + o2.w / 2)| ≤ (o1.w + o2.w) / 2)
  && decide (|o1.y + o1.h / 2 - (o2.y + o2.h / 2)| ≤ (o1.h + o2.h) / 2)

/-- `find_obstacle` of `src/main_9_move_in_air.py`: first fixed body
that the `(dx, dy)`-displaced copy newly overlaps.  This version has
no bridge rule. -/
def find_obstacle (objs : List Solid) (obj : Solid) (dx dy : ℚ) : Option Nat :=
  let objCopy : Solid := { obj with x := obj.x + dx * COLLIDE_EPS,
                                    y := obj.y + dy * COLLIDE_EPS }
  firstIdxP (fun f => f.fixed && !collide obj f && collide objCopy f) objs

/-- Sensing pass body update: the four contact slots recomputed. -/
def senseBody (objs : List Solid) (o : Solid) : Solid :=
  if o.fixed then o else
  { o with
    cXPos := find_obstacle objs o 1 0
    cXNeg := find_obstacle objs o (-1) 0
    cYPos := find_obstacle objs o 0 1
    cYNeg := find_obstacle objs o 0 (-1) }

def senseAll (objs : List Solid) : List Solid := objs.map (senseBody objs)

/-- Gravity: `vy += G * Δt` for movable bodies with no `y_pos`
contact. -/
def gravityBody (dt : ℚ) (o : Solid) : Solid :=
  if o.fixed then o else
  if o.cYPos.isSome then o else { o with vy := o.vy + G * dt }

def gravityPhase (dt : ℚ) (objs : List Solid) : List Solid :=
  objs.map (gravityBody dt)

def isPlayerTag (o : Solid) : Bool := o.tag == "player"

/-- The velocity update applied to the player body: jump and move
velocities when grounded (`y_pos` contact present; 0.1 damping when no
move is scheduled), the air-control branch otherwise. -/
def playerBody (jump : Bool) (move : ℚ) (pl : Solid) : Solid :=
  if pl.cYPos.isSome then
    let pl1 := if jump then { pl with vy := pl.vy - JUMP_VEL } else pl
    if move = 0 then { pl1 with vx := pl1.vx * (1/10) }
    else
      if pl1.vx * (MOVE_VEL * move) ≤ 0 ∨ |pl1.vx| < |MOVE_VEL * move| then
        { pl1 with vx := MOVE_VEL * move }
      else pl1
  else
    if move = 0 then pl
    else
      if pl.vx * (MOVE_VEL * move * MOVE_VEL_FACTOR_AIR) ≤ 0
          ∨ |pl.vx| < |MOVE_VEL * move * MOVE_VEL_FACTOR_AIR| then
        { pl with vx := MOVE_VEL * move * MOVE_VEL_FACTOR_AIR }
      else pl

/-- Player intent phase: the first body tagged `"player"` receives the
jump/move velocity updates. -/
def playerPhase (jump : Bool) (move : ℚ) (objs : List Solid) : List Solid :=
  match firstIdxP isPlayerTag objs with
  | none => objs
  | some p => objs.set p (playerBody jump move (objs.getD p default))

/-- First velocity-correction clamp: `if contact.x_pos and vx > 0`. -/
def clampXPos (o : Solid) : Solid :=
  if o.cXPos.isSome ∧ 0 < o.vx then { o with vx := 0 } else o

/-- Second clamp, for `x_neg` and `vx < 0`. -/
def clampXNeg (o : Solid) : Solid :=
  if o.cXNeg.isSome ∧ o.vx < 0 then { o with vx := 0 } else o

/-- Third clamp, for `y_pos` and `vy > 0`. -/
def clampYPos (o : Solid) : Solid :=
  if o.cYPos.isSome ∧ 0 < o.vy then { o with vy := 0 } else o

/-- Fourth clamp, for `y_neg` and `vy < 0`. -/
def clampYNeg (o : Solid) : Solid :=
  if o.cYNeg.isSome ∧ o.vy < 0 then { o with vy := 0 } else o

/-- Velocity-correction phase body update: the four sequential contact
clamps. -/
def clampBody (o : Solid) : Solid :=
  if o.fixed then o else clampYNeg (clampYPos (clampXNeg (clampXPos o)))

def clampPhase (objs : List Solid) : List Solid := objs.map clampBody

/-- One backward step of the penetration resolver. -/
def stepBack (dt : ℚ) (o : Solid) : Solid :=
  { o with x := o.x - o.vx * dt * COLLIDE_SOLVE_FACTOR,
           y := o.y - o.vy * dt * COLLIDE_SOLVE_FACTOR }

/-- The resolver's `while collide: step back` loop, with fuel. -/
def resolveLoop : Nat → ℚ → Solid → Solid → Solid
  | 0, _, o, _ => o
  | fuel + 1, dt, o, f => if collide o f then resolveLoop fuel dt (stepBack dt o) f else o

/-- Resolution of one moved body against one fixed body, guarded by
the pre-update overlap check: the loop runs only when the body did not
overlap the fixed body before the position update but does now.  There
is no bridge exception in this version. -/
def resolvePair (fuel : Nat) (dt : ℚ) (prev o f : Solid) : Solid :=
  if !collide prev f && collide o f then resolveLoop fuel dt o f else o

/-- Per-body position update followed by resolution against every
fixed body, with the pre-update copy `prev` taken before the move. -/
def moveBody (fuel : Nat) (dt : ℚ) (objs : List Solid) (o : Solid) : Solid :=
  if o.fixed then o else
  let prev := o
  let o1 : Solid := { o with x := o.x + o.vx * dt, y := o.y + o.vy * dt }
  (objs.filter (fun f => f.fixed)).foldl (fun acc f => resolvePair fuel dt prev acc f) o1

def movePhase (fuel : Nat) (dt : ℚ) (objs : List Solid) : List Solid :=
  objs.map (moveBody fuel dt objs)

/-- One invocation of `main_physics` of `src/main_9_move_in_air.py`. -/
def tick (fuel : Nat) (jump : Bool) (move dt : ℚ) (objs : List Solid) : List Solid :=
  movePhase fuel dt
    (clampPhase
      (playerPhase jump move
        (gravityPhase dt
          (senseAll objs))))

/-- The overlap formula with strict inequalities (the specification's
wording); this version's `collide` uses `≤` instead. -/
def overlapsSpecStrict (a b : Solid) : Prop :=
  |a.x + a.w / 2 - (b.x + b.w / 2)| < (a.w + b.w) / 2
  ∧ |a.y + a.h / 2 - (b.y + b.h / 2)| < (a.h + b.h) / 2

/-- The overlap formula with inclusive inequalities. -/
def overlapsSpecIncl (a b : Solid) : Prop :=
  |a.x + a.w / 2 - (b.x + b.w / 2)| ≤ (a.w + b.w) / 2
  ∧ |a.y + a.h / 2 - (b.y + b.h / 2)| ≤ (a.h + b.h) / 2

end MoveInAir

/-!
Concrete bodies and worlds used by the counterexamples and witnesses.
All numbers are chosen so that `decide` evaluates the embedded code on
them directly.
-/

/-- Movable body moving upward (`vy = -1`), used to probe the bridge
rule of `MainPy.find_obstacle` on a horizontal axis. -/
def mvUp : MainPy.Solid :=
  { tag := "mv", x := 0, y := 0, w := 10, h := 10, fixed := false, color := "red",
    vx := 0, vy := -1, m := 1, fx := 0, fy := 0,
    friction_x := 3/10, friction_y := 0,
    sXPos := none, sXNeg := none, sYPos := none, sYNeg := none }

/-- The same body with `vy = 0`. -/
def mvLevel : MainPy.Solid := { mvUp with vy := 0 }

/-- A bridge half a unit to the right of `mvUp`: within the probe
distance, outside the current rectangle. -/
def bridgeRight : MainPy.Solid :=
  { tag := "bridge", x := 21/2, y := 0, w := 30, h := 3, fixed := true,
    color := "black", vx := 0, vy := 0, m := 1, fx := 0, fy := 0,
    friction_x := 3/10, friction_y := 0,
    sXPos := none, sXNeg := none, sYPos := none, sYNeg := none }

/-- A block with exactly the geometry of `bridgeRight`. -/
def blockRight : MainPy.Solid := { bridgeRight with tag := "block" }

/-- A movable body that already overlaps `blkWide` (by `1/1000`)
before any position update and is moving further in (`vx = 1`). -/
def mvInside : MainPy.Solid :=
  { tag := "mv", x := 90 + 1/1000, y := 10, w := 10, h := 10, fixed := false,
    color := "red", vx := 1, vy := 0, m := 1, fx := 0, fy := 0,
    friction_x := 3/10, friction_y := 0,
    sXPos := none, sXNeg := none, sYPos := none, sYNeg := none }

/-- A fixed block spanning `x ∈ [100, 130]`, `y ∈ [0, 30]`. -/
def blkWide : MainPy.Solid :=
  { tag := "block", x := 100, y := 0, w := 30, h := 30, fixed := true,
    color := "black", vx := 0, vy := 0, m := 1, fx := 0, fy := 0,
    friction_x := 3/10, friction_y := 0,
    sXPos := none, sXNeg := none, sYPos := none, sYNeg := none }

/-- World in which the movable body overlaps the block already before
the position update. -/
def wOverlap : List MainPy.Solid := [mvInside, blkWide]

/-- `wOverlap` after the position update with `Δt = 1`. -/
def wOverlapPost : List MainPy.Solid := MainPy.positionPhase 1 wOverlap

/-- A movable body overlapping `blkWide` with exactly zero velocity:
the configuration on which the resolver's `while` loop can never make
progress. -/
def mvStuck : MainPy.Solid :=
  { tag := "mv", x := 100, y := 10, w := 10, h := 10, fixed := false,
    color := "red", vx := 0, vy := 0, m := 1, fx := 0, fy := 0,
    friction_x := 3/10, friction_y := 0,
    sXPos := none, sXNeg := none, sYPos := none, sYNeg := none }

/-- Movable body sliding horizontally (`vy = 0`) toward `bridgeNine`
in the `MoveInAir` engine; it is strictly left of the bridge before
the update and inside it after an update with `Δt = 1`. -/
def mvSlide : MoveInAir.Solid :=
  { tag := "mv", x := 899/10, y := 48, w := 10, h := 10, fixed := false,
    color := "red", vx := 1, vy := 0,
    cXPos := none, cXNeg := none, cYPos := none, cYNeg := none }

/-- A fixed bridge spanning `x ∈ [100, 130]`, `y ∈ [50, 53]` in the
`MoveInAir` engine. -/
def bridgeNine : MoveInAir.Solid :=
  { tag := "bridge", x := 100, y := 50, w := 30, h := 3, fixed := true,
    color := "black", vx := 0, vy := 0,
    cXPos := none, cXNeg := none, cYPos := none, cYNeg := none }

/-- World for the `MoveInAir` resolver: the slider and the bridge. -/
def wSlide : List MoveInAir.Solid := [mvSlide, bridgeNine]

/-- A movable body with both vertical contact slots and one horizontal
contact slot preset, to exercise the friction coupler's preference
order. -/
def mvRub : MainPy.Solid :=
  { tag := "mv", x := 0, y := 0, w := 10, h := 10, fixed := false, color := "red",
    vx := 8, vy := 6, m := 1, fx := 0, fy := 0,
    friction_x := 3/10, friction_y := 0,
    sXPos := some 2, sXNeg := none, sYPos := some 1, sYNeg := some 2 }

/-- Contacted body with `friction_x = 1/2`. -/
def floorHalf : MainPy.Solid :=
  { blkWide with friction_x := 1/2, friction_y := 1/4 }

/-- Contacted body with `friction_y = 1/3`. -/
def wallThird : MainPy.Solid :=
  { blkWide with x := 200, friction_x := 1/5, friction_y := 1/3 }

/-- World for the friction witness. -/
def wRub : List MainPy.Solid := [mvRub, floorHalf, wallThird]

/-- A player body half a unit left of `wallNear` and half a unit above
`floorNear`: sensing sets both `sXPos` and `sYPos`. -/
def playerCorner : MainPy.Solid :=
  { tag := "player", x := 0, y := 0, w := 10, h := 10, fixed := false,
    color := "red", vx := 0, vy := 0, m := 1, fx := 0, fy := 0,
    friction_x := 3/10, friction_y := 0,
    sXPos := none, sXNeg := none, sYPos := none, sYNeg := none }

/-- Fixed wall spanning `x ∈ [10.5, 40.5]`, `y ∈ [0, 30]`. -/
def wallNear : MainPy.Solid :=
  { tag := "block", x := 21/2, y := 0, w := 30, h := 30, fixed := true,
    color := "black", vx := 0, vy := 0, m := 1, fx := 0, fy := 0,
    friction_x := 3/10, friction_y := 0,
    sXPos := none, sXNeg := none, sYPos := none, sYNeg := none }

/-- World with the player beside a wall. -/
def wCornerM : List MainPy.Solid := [playerCorner, wallNear]

/-- `MoveInAir` player hovering half a unit above `floorNine`. -/
def playerNine : MoveInAir.Solid :=
  { tag := "player", x := 0, y := 19/2, w := 10, h := 10, fixed := false,
    color := "red", vx := 0, vy := 0,
    cXPos := none, cXNeg := none, cYPos := none, cYNeg := none }

/-- Fixed floor spanning `x ∈ [-20, 40]`, `y ∈ [20, 50]`. -/
def floorNine : MoveInAir.Solid :=
  { tag := "block", x := -20, y := 20, w := 60, h := 30, fixed := true,
    color := "black", vx := 0, vy := 0,
    cXPos := none, cXNeg := none, cYPos := none, cYNeg := none }

/-- Fixed wall spanning `x ∈ [10.5, 40.5]`, `y ∈ [0, 30]` for the
`MoveInAir` engine. -/
def wallNine : MoveInAir.Solid :=
  { tag := "block", x := 21/2, y := 0, w := 30, h := 30, fixed := true,
    color := "black", vx := 0, vy := 0,
    cXPos := none, cXNeg := none, cYPos := none, cYNeg := none }

/-- Grounded player with a wall on its `x_pos` side. -/
def wWalled : List MoveInAir.Solid := [playerNine, floorNine, wallNine]

/-- Grounded player with free space on its `x_pos` side. -/
def wFree : List MoveInAir.Solid := [playerNine, floorNine]

/-- A body whose mass field is zero, built exactly as the `Solid`
dataclass of `src/main.py` builds bodies: no validation of any kind is
performed on `m`, so the value is stored as given. -/
def zeroMassBody : MainPy.Solid :=
  { tag := "b", x := 0, y := 0, w := 1, h := 1, fixed := false, color := "red",
    vx := 0, vy := 0, m := 0, fx := 5, fy := 0,
    friction_x := 3/10, friction_y := 0,
    sXPos := none, sXNeg := none, sYPos := none, sYNeg := none }

/-- Two `MoveInAir` bodies whose rectangles touch exactly along the
edge `x = 10` without interior intersection. -/
def touchA : MoveInAir.Solid :=
  { tag := "a", x := 0, y := 0, w := 10, h := 10, fixed := false, color := "red",
    vx := 0, vy := 0, cXPos := none, cXNeg := none, cYPos := none, cYNeg := none }

/-- The touching partner of `touchA`. -/
def touchB : MoveInAir.Solid :=
  { touchA with tag := "b", x := 10 }

/-- `mvSlide` after the position update with `Δt = 1`: strictly inside
`bridgeNine`. -/
def movedSlide : MoveInAir.Solid := { mvSlide with x := mvSlide.x + 1 }

/-!
Generic lemmas about `List.getD`, `List.set` and `firstIdxP`.
-/

theorem getD_map_fix {α : Type} (f : α → α) (d : α) (hf : f d = d) :
    ∀ (l : List α) (i : Nat), (l.map f).getD i d = f (l.getD i d)
  | [], i => by simp [hf]
  | a :: l, 0 => by simp
  | a :: l, i + 1 => by
      simpa using getD_map_fix f d hf l i

theorem getD_set_ne {α : Type} :
    ∀ (l : List α) (p i : Nat) (b d : α), i ≠ p →
      (l.set p b).getD i d = l.getD i d
  | [], _, _, _, _, _ => rfl
  | a :: l, 0, 0, b, d, h => absurd rfl h
  | a :: l, 0, i + 1, b, d, _ => by simp
  | a :: l, p + 1, 0, b, d, _ => by simp
  | a :: l, p + 1, i + 1, b, d, h => by
      have hip : i ≠ p := fun he => h (by rw [he])
      simpa using getD_set_ne l p i b d hip

theorem getD_set_eq {α : Type} :
    ∀ (l : List α) (p : Nat) (b d : α), p < l.length →
      (l.set p b).getD p d = b
  | [], p, b, d, h => by simp at h
  | a :: l, 0, b, d, _ => by simp
  | a :: l, p + 1, b, d, h => by
      have hlt : p < l.length := by
        simpa using Nat.lt_of_succ_lt_succ (by simpa using h)
      simpa using getD_set_eq l p b d hlt

theorem firstIdxP_congr {α : Type} (p q : α → Bool) (hpq : ∀ a, p a = q a) :
    ∀ l : List α, firstIdxP p l = firstIdxP q l
  | [] => rfl
  | a :: l => by simp [firstIdxP, hpq a, firstIdxP_congr p q hpq l]

theorem firstIdxP_map {α : Type} (p : α → Bool) (f : α → α)
    (hf : ∀ a, p (f a) = p a) :
    ∀ l : List α, firstIdxP p (l.map f) = firstIdxP p l
  | [] => rfl
  | a :: l => by simp [firstIdxP, hf a, firstIdxP_map p f hf l]

theorem firstIdxP_lt_length {α : Type} (p : α → Bool) :
    ∀ (l : List α) (i : Nat), firstIdxP p l = some i → i < l.length := by
  intro l
  induction l with
  | nil => intro i h; simp [firstIdxP] at h
  | cons a l ih =>
      intro i h
      by_cases hpa : p a
      · simp [firstIdxP, hpa] at h
        simp [← h]
      · simp [firstIdxP, hpa] at h
        obtain ⟨j, hj, rfl⟩ := h
        have := ih j hj
        simpa using Nat.succ_lt_succ this

theorem firstIdxP_pred {α : Type} (p : α → Bool) (d : α) :
    ∀ (l : List α) (i : Nat), firstIdxP p l = some i → p (l.getD i d) = true := by
  intro l
  induction l with
  | nil => intro i h; simp [firstIdxP] at h
  | cons a l ih =>
      intro i h
      by_cases hpa : p a
      · simp [firstIdxP, hpa] at h
        subst h
        simpa using hpa
      · simp [firstIdxP, hpa] at h
        obtain ⟨j, hj, rfl⟩ := h
        simpa using ih j hj

theorem getD_mem_or {α : Type} :
    ∀ (l : List α) (i : Nat) (d : α), l.getD i d ∈ l ∨ l.getD i d = d
  | [], i, d => Or.inr rfl
  | a :: l, 0, d => Or.inl (by simp)
  | a :: l, i + 1, d => by
      rcases getD_mem_or l i d with h | h
      · simp only [List.getD_cons_succ]
        exact Or.inl (List.mem_cons_of_mem a h)
      · simp only [List.getD_cons_succ]
        exact Or.inr h

/-!
Pointwise lemmas about the phases of `MainPy.main_physics`.
-/

namespace MainPy

theorem senseBody_default (objs : List Solid) : senseBody objs default = default := rfl

theorem gravityBody_default : gravityBody default = default := rfl

theorem velocityBody_default : velocityBody default = default := rfl

theorem frictionBody_default (objs : List Solid) : frictionBody objs default = default := rfl

theorem positionBody_default (dt : ℚ) : positionBody dt default = default := rfl

theorem resolveBody_default (fuel : Nat) (dt : ℚ) (objs : List Solid) :
    resolveBody fuel dt objs default = default := rfl

theorem senseAll_getD (objs : List Solid) (i : Nat) :
    (senseAll objs).getD i default = senseBody objs (objs.getD i default) :=
  getD_map_fix _ _ (senseBody_default objs) objs i

theorem gravityPhase_getD (objs : List Solid) (i : Nat) :
    (gravityPhase objs).getD i default = gravityBody (objs.getD i default) :=
  getD_map_fix _ _ gravityBody_default objs i

theorem velocityPhase_getD (objs : List Solid) (i : Nat) :
    (velocityPhase objs).getD i default = velocityBody (objs.getD i default) :=
  getD_map_fix _ _ velocityBody_default objs i

theorem frictionPhase_getD (objs : List Solid) (i : Nat) :
    (frictionPhase objs).getD i default = frictionBody objs (objs.getD i default) :=
  getD_map_fix _ _ (frictionBody_default objs) objs i

theorem positionPhase_getD (dt : ℚ) (objs : List Solid) (i : Nat) :
    (positionPhase dt objs).getD i default = positionBody dt (objs.getD i default) :=
  getD_map_fix _ _ (positionBody_default dt) objs i

theorem resolvePhase_getD (fuel : Nat) (dt : ℚ) (objs : List Solid) (i : Nat) :
    (resolvePhase fuel dt objs).getD i default
      = resolveBody fuel dt objs (objs.getD i default) :=
  getD_map_fix _ _ (resolveBody_default fuel dt objs) objs i

theorem senseBody_shape (objs : List Solid) (o : Solid) :
    ∃ a b c d, senseBody objs o
      = { o with sXPos := a, sXNeg := b, sYPos := c, sYNeg := d } := by
  unfold senseBody
  by_cases h : o.fixed
  · exact ⟨o.sXPos, o.sXNeg, o.sYPos, o.sYNeg, by rw [if_pos h]⟩
  · exact ⟨find_obstacle objs o Axis.x 1, find_obstacle objs o Axis.x (-1),
      find_obstacle objs o Axis.y 1, find_obstacle objs o Axis.y (-1),
      by rw [if_neg h]⟩

theorem gravityBody_shape (o : Solid) : ∃ c, gravityBody o = { o with fy := c } := by
  unfold gravityBody
  by_cases h : o.fixed
  · exact ⟨o.fy, by rw [if_pos h]⟩
  · by_cases h2 : o.sYPos.isSome
    · exact ⟨o.fy, by rw [if_neg h, if_pos h2]⟩
    · exact ⟨o.fy + o.m * G, by rw [if_neg h, if_neg h2]⟩

theorem clampXPos_shape (o : Solid) : ∃ a, clampXPos o = { o with vx := a } := by
  unfold clampXPos
  split
  · exact ⟨0, rfl⟩
  · exact ⟨o.vx, rfl⟩

theorem clampXNeg_shape (o : Solid) : ∃ a, clampXNeg o = { o with vx := a } := by
  unfold clampXNeg
  split
  · exact ⟨0, rfl⟩
  · exact ⟨o.vx, rfl⟩

theorem clampYPos_shape (o : Solid) : ∃ a, clampYPos o = { o with vy := a } := by
  unfold clampYPos
  split
  · exact ⟨0, rfl⟩
  · exact ⟨o.vy, rfl⟩

theorem clampYNeg_shape (o : Solid) : ∃ a, clampYNeg o = { o with vy := a } := by
  unfold clampYNeg
  split
  · exact ⟨0, rfl⟩
  · exact ⟨o.vy, rfl⟩

theorem velocityBody_shape (o : Solid) :
    ∃ a b c d, velocityBody o = { o with vx := a, vy := b, fx := c, fy := d } := by
  by_cases h : o.fixed
  · exact ⟨o.vx, o.vy, o.fx, o.fy, by unfold velocityBody; rw [if_pos h]⟩
  · obtain ⟨a1, h1⟩ := clampXPos_shape (accelBody o)
    obtain ⟨a2, h2⟩ := clampXNeg_shape (clampXPos (accelBody o))
    obtain ⟨a3, h3⟩ := clampYPos_shape (clampXNeg (clampXPos (accelBody o)))
    obtain ⟨a4, h4⟩ := clampYNeg_shape (clampYPos (clampXNeg (clampXPos (accelBody o))))
    refine ⟨a2, a4, 0, 0, ?_⟩
    unfold velocityBody
    rw [if_neg h, h4, h3, h2, h1]
    rfl

theorem frictionBody_shape (objs : List Solid) (o : Solid) :
    ∃ a b, frictionBody objs o = { o with vx := a, vy := b } := by
  unfold frictionBody
  by_cases h : o.fixed
  · exact ⟨o.vx, o.vy, by rw [if_pos h]⟩
  · rw [if_neg h]
    cases hm1 : firstSome o.sYPos o.sYNeg with
    | none =>
        cases hm2 : firstSome o.sXPos o.sXNeg with
        | none => exact ⟨o.vx, o.vy, by simp only [hm1, hm2]⟩
        | some j =>
            exact ⟨o.vx, o.vy * (1 - (objs.getD j default).friction_y),
              by simp only [hm1, hm2]⟩
    | some j =>
        cases hm2 : firstSome o.sXPos o.sXNeg with
        | none =>
            exact ⟨o.vx * (1 - (objs.getD j default).friction_x), o.vy,
              by simp only [hm1, hm2]⟩
        | some k =>
            exact ⟨o.vx * (1 - (objs.getD j default).friction_x),
              o.vy * (1 - (objs.getD k default).friction_y),
              by simp only [hm1, hm2]⟩

theorem positionBody_shape (dt : ℚ) (o : Solid) :
    ∃ a b, positionBody dt o = { o with x := a, y := b } := by
  unfold positionBody
  by_cases h : o.fixed
  · exact ⟨o.x, o.y, by rw [if_pos h]⟩
  · exact ⟨o.x + o.vx * dt, o.y + o.vy * dt, by rw [if_neg h]⟩

theorem resolveLoop_shape (fuel : Nat) (dt : ℚ) (o f : Solid) :
    ∃ a b, resolveLoop fuel dt o f = { o with x := a, y := b } := by
  induction fuel generalizing o with
  | zero => exact ⟨o.x, o.y, rfl⟩
  | succ n ih =>
      unfold resolveLoop
      by_cases hc : collide o f
      · obtain ⟨a, b, hab⟩ := ih (stepBack dt o)
        refine ⟨a, b, ?_⟩
        rw [if_pos hc, hab]
        rfl
      · exact ⟨o.x, o.y, by rw [if_neg hc]⟩

theorem resolveOne_shape (fuel : Nat) (dt : ℚ) (o f : Solid) :
    ∃ a b, resolveOne fuel dt o f = { o with x := a, y := b } := by
  unfold resolveOne
  split
  · exact ⟨o.x, o.y, rfl⟩
  · exact resolveLoop_shape fuel dt o f

theorem foldl_resolveOne_shape (fuel : Nat) (dt : ℚ) :
    ∀ (fs : List Solid) (o : Solid),
      ∃ a b, fs.foldl (resolveOne fuel dt) o = { o with x := a, y := b }
  | [], o => ⟨o.x, o.y, rfl⟩
  | f :: fs, o => by
      obtain ⟨a, b, hab⟩ := resolveOne_shape fuel dt o f
      obtain ⟨c, d, hcd⟩ := foldl_resolveOne_shape fuel dt fs (resolveOne fuel dt o f)
      refine ⟨c, d, ?_⟩
      rw [List.foldl_cons, hcd, hab]

theorem resolveBody_shape (fuel : Nat) (dt : ℚ) (objs : List Solid) (o : Solid) :
    ∃ a b, resolveBody fuel dt objs o = { o with x := a, y := b } := by
  unfold resolveBody
  by_cases h : o.fixed
  · exact ⟨o.x, o.y, by rw [if_pos h]⟩
  · rw [if_neg h]
    exact foldl_resolveOne_shape fuel dt _ o

theorem playerBody_shape (jump : Bool) (move : ℚ) (pl : Solid) :
    ∃ a b, playerBody jump move pl = { pl with fx := a, fy := b } := by
  unfold playerBody
  by_cases hg : pl.sYPos.isSome
  · rw [if_pos hg]
    by_cases hj : jump
    · by_cases hm : move = 0
      · exact ⟨pl.fx, pl.fy - PLAYER_JUMP_POWER, by rw [if_pos hm, if_pos hj]⟩
      · exact ⟨pl.fx + PLAYER_MOVE_POWER * move, pl.fy - PLAYER_JUMP_POWER,
          by rw [if_neg hm, if_pos hj]⟩
    · by_cases hm : move = 0
      · exact ⟨pl.fx, pl.fy, by rw [if_pos hm, if_neg hj]⟩
      · exact ⟨pl.fx + PLAYER_MOVE_POWER * move, pl.fy,
          by rw [if_neg hm, if_neg hj]⟩
  · rw [if_neg hg]
    by_cases hm : move = 0
    · exact ⟨pl.fx, pl.fy, by rw [if_pos hm]⟩
    · exact ⟨pl.fx + PLAYER_MOVE_POWER * move / |move| * (1/50), pl.fy,
        by rw [if_neg hm]⟩

theorem playerPhase_getD_shape (jump : Bool) (move : ℚ) (objs : List Solid) (i : Nat) :
    ∃ a b, (playerPhase jump move objs).getD i default
      = { objs.getD i default with fx := a, fy := b } := by
  unfold playerPhase
  cases hfind : firstIdxP isPlayerTag objs with
  | none =>
      exact ⟨(objs.getD i default).fx, (objs.getD i default).fy, rfl⟩
  | some p =>
      by_cases hip : i = p
      · subst hip
        have hlen := firstIdxP_lt_length isPlayerTag objs i hfind
        rw [getD_set_eq objs i _ default hlen]
        exact playerBody_shape jump move (objs.getD i default)
      · rw [getD_set_ne objs p i _ default hip]
        exact ⟨(objs.getD i default).fx, (objs.getD i default).fy, rfl⟩

end MainPy

namespace MainPy

theorem clampXPos_nonpos (o : Solid) (h : o.sXPos.isSome = true) :
    (clampXPos o).vx ≤ 0 := by
  unfold clampXPos
  split
  · rfl
  case isFalse hc =>
    have := fun hv => hc ⟨h, hv⟩
    simpa using le_of_not_lt this

theorem clampXNeg_nonneg (o : Solid) (h : o.sXNeg.isSome = true) :
    0 ≤ (clampXNeg o).vx := by
  unfold clampXNeg
  split
  · rfl
  case isFalse hc =>
    have := fun hv => hc ⟨h, hv⟩
    simpa using le_of_not_lt this

theorem clampYPos_nonpos (o : Solid) (h : o.sYPos.isSome = true) :
    (clampYPos o).vy ≤ 0 := by
  unfold clampYPos
  split
  · rfl
  case isFalse hc =>
    have := fun hv => hc ⟨h, hv⟩
    simpa using le_of_not_lt this

theorem clampYNeg_nonneg (o : Solid) (h : o.sYNeg.isSome = true) :
    0 ≤ (clampYNeg o).vy := by
  unfold clampYNeg
  split
  · rfl
  case isFalse hc =>
    have := fun hv => hc ⟨h, hv⟩
    simpa using le_of_not_lt this

theorem clampXNeg_vx_cases (o : Solid) :
    (clampXNeg o).vx = 0 ∨ (clampXNeg o).vx = o.vx := by
  unfold clampXNeg
  split
  · exact Or.inl rfl
  · exact Or.inr rfl

theorem clampYNeg_vy_cases (o : Solid) :
    (clampYNeg o).vy = 0 ∨ (clampYNeg o).vy = o.vy := by
  unfold clampYNeg
  split
  · exact Or.inl rfl
  · exact Or.inr rfl

theorem clampXPos_proj (o : Solid) :
    (clampXPos o).vy = o.vy ∧ (clampXPos o).sXPos = o.sXPos
    ∧ (clampXPos o).sXNeg = o.sXNeg ∧ (clampXPos o).sYPos = o.sYPos
    ∧ (clampXPos o).sYNeg = o.sYNeg := by
  obtain ⟨a, ha⟩ := clampXPos_shape o
  rw [ha]
  exact ⟨rfl, rfl, rfl, rfl, rfl⟩

theorem clampXNeg_proj (o : Solid) :
    (clampXNeg o).vy = o.vy ∧ (clampXNeg o).sXPos = o.sXPos
    ∧ (clampXNeg o).sXNeg = o.sXNeg ∧ (clampXNeg o).sYPos = o.sYPos
    ∧ (clampXNeg o).sYNeg = o.sYNeg := by
  obtain ⟨a, ha⟩ := clampXNeg_shape o
  rw [ha]
  exact ⟨rfl, rfl, rfl, rfl, rfl⟩

theorem clampYPos_proj (o : Solid) :
    (clampYPos o).vx = o.vx ∧ (clampYPos o).sXPos = o.sXPos
    ∧ (clampYPos o).sXNeg = o.sXNeg ∧ (clampYPos o).sYPos = o.sYPos
    ∧ (clampYPos o).sYNeg = o.sYNeg := by
  obtain ⟨a, ha⟩ := clampYPos_shape o
  rw [ha]
  exact ⟨rfl, rfl, rfl, rfl, rfl⟩

theorem clampYNeg_proj (o : Solid) :
    (clampYNeg o).vx = o.vx ∧ (clampYNeg o).sXPos = o.sXPos
    ∧ (clampYNeg o).sXNeg = o.sXNeg ∧ (clampYNeg o).sYPos = o.sYPos
    ∧ (clampYNeg o).sYNeg = o.sYNeg := by
  obtain ⟨a, ha⟩ := clampYNeg_shape o
  rw [ha]
  exact ⟨rfl, rfl, rfl, rfl, rfl⟩

/-- The four contact clamps of the velocity phase leave the velocity
component pointing into a sensed contact on the correct side of zero:
this holds at the end of the whole clamp sequence. -/
theorem velocityBody_clamps (o : Solid) (hf : o.fixed = false) :
    (o.sXPos.isSome = true → (velocityBody o).vx ≤ 0)
    ∧ (o.sXNeg.isSome = true → 0 ≤ (velocityBody o).vx)
    ∧ (o.sYPos.isSome = true → (velocityBody o).vy ≤ 0)
    ∧ (o.sYNeg.isSome = true → 0 ≤ (velocityBody o).vy) := by
  have hvb : velocityBody o = clampYNeg (clampYPos (clampXNeg (clampXPos (accelBody o)))) := by
    unfold velocityBody
    rw [if_neg (by rw [hf]; exact Bool.false_ne_true)]
  have hA : (accelBody o).sXPos = o.sXPos ∧ (accelBody o).sXNeg = o.sXNeg
      ∧ (accelBody o).sYPos = o.sYPos ∧ (accelBody o).sYNeg = o.sYNeg :=
    ⟨rfl, rfl, rfl, rfl⟩
  refine ⟨?_, ?_, ?_, ?_⟩
  · intro h
    rw [hvb, (clampYNeg_proj _).1, (clampYPos_proj _).1]
    rcases clampXNeg_vx_cases (clampXPos (accelBody o)) with hc | hc
    · rw [hc]
    · rw [hc]
      exact clampXPos_nonpos _ (by rw [hA.1]; exact h)
  · intro h
    rw [hvb, (clampYNeg_proj _).1, (clampYPos_proj _).1]
    exact clampXNeg_nonneg _ (by rw [(clampXPos_proj _).2.2.1, hA.2.1]; exact h)
  · intro h
    rw [hvb]
    rcases clampYNeg_vy_cases (clampYPos (clampXNeg (clampXPos (accelBody o)))) with hc | hc
    · rw [hc]
    · rw [hc]
      exact clampYPos_nonpos _
        (by rw [(clampXNeg_proj _).2.2.2.1, (clampXPos_proj _).2.2.2.1, hA.2.2.1]; exact h)
  · intro h
    rw [hvb]
    exact clampYNeg_nonneg _
      (by rw [(clampYPos_proj _).2.2.2.2, (clampXNeg_proj _).2.2.2.2,
              (clampXPos_proj _).2.2.2.2, hA.2.2.2]; exact h)

/-- Friction multiplies each velocity component by a factor in `[0,1]`
when the coefficients of every body lie in `[0,1]`, hence preserves
the component's side of zero. -/
theorem frictionBody_sign (objs : List Solid) (o : Solid)
    (hb : ∀ k : Nat, 0 ≤ (objs.getD k default).friction_x
      ∧ (objs.getD k default).friction_x ≤ 1
      ∧ 0 ≤ (objs.getD k default).friction_y
      ∧ (objs.getD k default).friction_y ≤ 1) :
    (o.vx ≤ 0 → (frictionBody objs o).vx ≤ 0)
    ∧ (0 ≤ o.vx → 0 ≤ (frictionBody objs o).vx)
    ∧ (o.vy ≤ 0 → (frictionBody objs o).vy ≤ 0)
    ∧ (0 ≤ o.vy → 0 ≤ (frictionBody objs o).vy) := by
  unfold frictionBody
  by_cases h : o.fixed
  · rw [if_pos h]
    exact ⟨fun hv => hv, fun hv => hv, fun hv => hv, fun hv => hv⟩
  · rw [if_neg h]
    cases hm1 : firstSome o.sYPos o.sYNeg with
    | none =>
        cases hm2 : firstSome o.sXPos o.sXNeg with
        | none =>
            simp only [hm1, hm2]
            exact ⟨fun hv => hv, fun hv => hv, fun hv => hv, fun hv => hv⟩
        | some j =>
            simp only [hm1, hm2]
            obtain ⟨hx0, hx1, hy0, hy1⟩ := hb j
            exact ⟨fun hv => hv, fun hv => hv,
              fun hv => by nlinarith, fun hv => by nlinarith⟩
    | some j =>
        cases hm2 : firstSome o.sXPos o.sXNeg with
        | none =>
            simp only [hm1, hm2]
            obtain ⟨hx0, hx1, hy0, hy1⟩ := hb j
            exact ⟨fun hv => by nlinarith, fun hv => by nlinarith,
              fun hv => hv, fun hv => hv⟩
        | some k =>
            simp only [hm1, hm2]
            obtain ⟨hx0, hx1, hy0, hy1⟩ := hb j
            obtain ⟨kx0, kx1, ky0, ky1⟩ := hb k
            exact ⟨fun hv => by nlinarith, fun hv => by nlinarith,
              fun hv => by nlinarith, fun hv => by nlinarith⟩

end MainPy

namespace MainPy

/-- Transfer of the friction-coefficient bounds from list membership to
arbitrary `getD` lookups (the default body has coefficients `0.3` and
`0`, inside the bounds). -/
theorem frBounds_getD (objs : List Solid)
    (hfr : ∀ b ∈ objs, 0 ≤ b.friction_x ∧ b.friction_x ≤ 1
      ∧ 0 ≤ b.friction_y ∧ b.friction_y ≤ 1) (k : Nat) :
    0 ≤ (objs.getD k default).friction_x ∧ (objs.getD k default).friction_x ≤ 1
    ∧ 0 ≤ (objs.getD k default).friction_y ∧ (objs.getD k default).friction_y ≤ 1 := by
  rcases getD_mem_or objs k default with h | h
  · exact hfr _ h
  · rw [h]
    refine ⟨?_, ?_, ?_, ?_⟩ <;> with_unfolding_all decide

/-- Between sensing and the velocity phase (gravity and player-intent
phases), only pending forces change: velocity, contact slots,
fixedness and friction coefficients of every body are untouched. -/
theorem preVel_proj (jump : Bool) (move : ℚ) (objs : List Solid) (i : Nat) :
    ((playerPhase jump move (gravityPhase (senseAll objs))).getD i default).vx
      = ((senseAll objs).getD i default).vx
    ∧ ((playerPhase jump move (gravityPhase (senseAll objs))).getD i default).vy
      = ((senseAll objs).getD i default).vy
    ∧ ((playerPhase jump move (gravityPhase (senseAll objs))).getD i default).fixed
      = ((senseAll objs).getD i default).fixed
    ∧ ((playerPhase jump move (gravityPhase (senseAll objs))).getD i default).sXPos
      = ((senseAll objs).getD i default).sXPos
    ∧ ((playerPhase jump move (gravityPhase (senseAll objs))).getD i default).sXNeg
      = ((senseAll objs).getD i default).sXNeg
    ∧ ((playerPhase jump move (gravityPhase (senseAll objs))).getD i default).sYPos
      = ((senseAll objs).getD i default).sYPos
    ∧ ((playerPhase jump move (gravityPhase (senseAll objs))).getD i default).sYNeg
      = ((senseAll objs).getD i default).sYNeg
    ∧ ((playerPhase jump move (gravityPhase (senseAll objs))).getD i default).friction_x
      = ((senseAll objs).getD i default).friction_x
    ∧ ((playerPhase jump move (gravityPhase (senseAll objs))).getD i default).friction_y
      = ((senseAll objs).getD i default).friction_y := by
  obtain ⟨a, b, hab⟩ := playerPhase_getD_shape jump move (gravityPhase (senseAll objs)) i
  obtain ⟨c, hc⟩ := gravityBody_shape ((senseAll objs).getD i default)
  rw [hab, gravityPhase_getD, hc]
  exact ⟨rfl, rfl, rfl, rfl, rfl, rfl, rfl, rfl, rfl⟩

/-- The friction, position and resolution phases after the velocity
phase do not change velocities except through the friction multiplier,
and position/resolution do not change velocities at all. -/
theorem postVel_vel (fuel : Nat) (dt : ℚ) (objs : List Solid) (i : Nat) :
    ((resolvePhase fuel dt (positionPhase dt objs)).getD i default).vx
      = (objs.getD i default).vx
    ∧ ((resolvePhase fuel dt (positionPhase dt objs)).getD i default).vy
      = (objs.getD i default).vy := by
  obtain ⟨a, b, hab⟩ :=
    resolveBody_shape fuel dt (positionPhase dt objs) ((positionPhase dt objs).getD i default)
  obtain ⟨c, d, hcd⟩ := positionBody_shape dt (objs.getD i default)
  rw [resolvePhase_getD, hab, positionPhase_getD, hcd]
  exact ⟨rfl, rfl⟩

/-- Friction coefficients are unchanged through the whole first half
of the tick, so the bounds hypothesis transfers to the friction
phase's input. -/
theorem midTick_frictions (jump : Bool) (move : ℚ) (objs : List Solid) (k : Nat) :
    ((midTick jump move objs).getD k default).friction_x
      = (objs.getD k default).friction_x
    ∧ ((midTick jump move objs).getD k default).friction_y
      = (objs.getD k default).friction_y := by
  obtain ⟨a, b, c, d, hv⟩ :=
    velocityBody_shape ((playerPhase jump move (gravityPhase (senseAll objs))).getD k default)
  have hp := preVel_proj jump move objs k
  obtain ⟨e1, e2, e3, e4, hs⟩ := senseBody_shape objs (objs.getD k default)
  unfold midTick
  rw [velocityPhase_getD, hv]
  constructor
  · show ((playerPhase jump move (gravityPhase (senseAll objs))).getD k default).friction_x = _
    rw [hp.2.2.2.2.2.2.2.1, senseAll_getD, hs]
  · show ((playerPhase jump move (gravityPhase (senseAll objs))).getD k default).friction_y = _
    rw [hp.2.2.2.2.2.2.2.2, senseAll_getD, hs]

end MainPy

namespace MainPy

theorem senseBody_fixed (objs : List Solid) (o : Solid) (h : o.fixed = true) :
    senseBody objs o = o := by
  unfold senseBody; rw [if_pos h]

theorem gravityBody_fixed (o : Solid) (h : o.fixed = true) : gravityBody o = o := by
  unfold gravityBody; rw [if_pos h]

theorem velocityBody_fixed (o : Solid) (h : o.fixed = true) : velocityBody o = o := by
  unfold velocityBody; rw [if_pos h]

theorem frictionBody_fixed (objs : List Solid) (o : Solid) (h : o.fixed = true) :
    frictionBody objs o = o := by
  unfold frictionBody; rw [if_pos h]

theorem positionBody_fixed (dt : ℚ) (o : Solid) (h : o.fixed = true) :
    positionBody dt o = o := by
  unfold positionBody; rw [if_pos h]

theorem resolveBody_fixed (fuel : Nat) (dt : ℚ) (objs : List Solid) (o : Solid)
    (h : o.fixed = true) : resolveBody fuel dt objs o = o := by
  unfold resolveBody; rw [if_pos h]

theorem senseBody_tagfix (objs : List Solid) (o : Solid) :
    (senseBody objs o).tag = o.tag ∧ (senseBody objs o).fixed = o.fixed := by
  obtain ⟨a, b, c, d, h⟩ := senseBody_shape objs o
  rw [h]; exact ⟨rfl, rfl⟩

theorem gravityBody_tagfix (o : Solid) :
    (gravityBody o).tag = o.tag ∧ (gravityBody o).fixed = o.fixed := by
  obtain ⟨c, h⟩ := gravityBody_shape o
  rw [h]; exact ⟨rfl, rfl⟩

theorem velocityBody_tagfix (o : Solid) :
    (velocityBody o).tag = o.tag ∧ (velocityBody o).fixed = o.fixed := by
  obtain ⟨a, b, c, d, h⟩ := velocityBody_shape o
  rw [h]; exact ⟨rfl, rfl⟩

theorem frictionBody_tagfix (objs : List Solid) (o : Solid) :
    (frictionBody objs o).tag = o.tag ∧ (frictionBody objs o).fixed = o.fixed := by
  obtain ⟨a, b, h⟩ := frictionBody_shape objs o
  rw [h]; exact ⟨rfl, rfl⟩

theorem positionBody_tagfix (dt : ℚ) (o : Solid) :
    (positionBody dt o).tag = o.tag ∧ (positionBody dt o).fixed = o.fixed := by
  obtain ⟨a, b, h⟩ := positionBody_shape dt o
  rw [h]; exact ⟨rfl, rfl⟩

theorem resolveBody_tagfix (fuel : Nat) (dt : ℚ) (objs : List Solid) (o : Solid) :
    (resolveBody fuel dt objs o).tag = o.tag
    ∧ (resolveBody fuel dt objs o).fixed = o.fixed := by
  obtain ⟨a, b, h⟩ := resolveBody_shape fuel dt objs o
  rw [h]; exact ⟨rfl, rfl⟩

theorem playerBody_tagfix (jump : Bool) (move : ℚ) (pl : Solid) :
    (playerBody jump move pl).tag = pl.tag
    ∧ (playerBody jump move pl).fixed = pl.fixed := by
  obtain ⟨a, b, h⟩ := playerBody_shape jump move pl
  rw [h]; exact ⟨rfl, rfl⟩

theorem playersMovable_map (objs : List Solid) (F : Solid → Solid)
    (hF : ∀ o, (F o).tag = o.tag ∧ (F o).fixed = o.fixed)
    (hpl : playersMovable objs) : playersMovable (objs.map F) := by
  intro b hb
  rw [List.mem_map] at hb
  obtain ⟨o, ho, rfl⟩ := hb
  intro htag
  rw [(hF o).2]
  exact hpl o ho (by rw [← (hF o).1]; exact htag)

theorem default_tag_not_player : (default : Solid).tag = "player" → False := by
  with_unfolding_all decide

theorem playersMovable_playerPhase (jump : Bool) (move : ℚ) (objs : List Solid)
    (hpl : playersMovable objs) : playersMovable (playerPhase jump move objs) := by
  unfold playerPhase
  cases hfind : firstIdxP isPlayerTag objs with
  | none => exact hpl
  | some p =>
      intro b hb htag
      rcases List.mem_or_eq_of_mem_set hb with hmem | rfl
      · exact hpl b hmem htag
      · rw [(playerBody_tagfix jump move _).2]
        have htag2 : (objs.getD p default).tag = "player" := by
          rw [← (playerBody_tagfix jump move (objs.getD p default)).1]
          exact htag
        rcases getD_mem_or objs p default with hm | hm
        · exact hpl _ hm htag2
        · rw [hm] at htag2
          exact absurd htag2 (by intro hc; exact default_tag_not_player hc)

theorem playersMovable_tick (fuel : Nat) (jump : Bool) (move dt : ℚ)
    (objs : List Solid) (hpl : playersMovable objs) :
    playersMovable (tick fuel jump move dt objs) := by
  unfold tick midTick senseAll gravityPhase velocityPhase frictionPhase positionPhase resolvePhase
  apply playersMovable_map _ _ (fun o => resolveBody_tagfix fuel dt _ o)
  apply playersMovable_map _ _ (fun o => positionBody_tagfix dt o)
  apply playersMovable_map _ _ (fun o => frictionBody_tagfix _ o)
  apply playersMovable_map _ _ (fun o => velocityBody_tagfix o)
  apply playersMovable_playerPhase
  apply playersMovable_map _ _ (fun o => gravityBody_tagfix o)
  apply playersMovable_map _ _ (fun o => senseBody_tagfix objs o)
  exact hpl

theorem playerPhase_fixed_getD (jump : Bool) (move : ℚ) (objs : List Solid) (i : Nat)
    (hpl : playersMovable objs) (h : (objs.getD i default).fixed = true) :
    (playerPhase jump move objs).getD i default = objs.getD i default := by
  unfold playerPhase
  cases hfind : firstIdxP isPlayerTag objs with
  | none => rfl
  | some p =>
      have hpred := firstIdxP_pred isPlayerTag default objs p hfind
      have htag : (objs.getD p default).tag = "player" := by
        simpa [isPlayerTag] using hpred
      have hpfix : (objs.getD p default).fixed = false := by
        rcases getD_mem_or objs p default with hm | hm
        · exact hpl _ hm htag
        · rw [hm] at htag
          exact absurd htag (by intro hc; exact default_tag_not_player hc)
      have hip : i ≠ p := by
        intro he
        rw [he, hpfix] at h
        exact Bool.false_ne_true h
      exact getD_set_ne objs p i _ default hip

/-- One tick leaves every fixed body completely unchanged, provided
every player-tagged body is movable. -/
theorem tick_fixed_getD (fuel : Nat) (jump : Bool) (move dt : ℚ)
    (objs : List Solid) (i : Nat) (hpl : playersMovable objs)
    (h : (objs.getD i default).fixed = true) :
    (tick fuel jump move dt objs).getD i default = objs.getD i default := by
  have hs : (senseAll objs).getD i default = objs.getD i default := by
    rw [senseAll_getD, senseBody_fixed _ _ h]
  have hplS : playersMovable (senseAll objs) :=
    playersMovable_map _ _ (fun o => senseBody_tagfix objs o) hpl
  have hg : (gravityPhase (senseAll objs)).getD i default = objs.getD i default := by
    rw [gravityPhase_getD, hs, gravityBody_fixed _ h]
  have hplG : playersMovable (gravityPhase (senseAll objs)) :=
    playersMovable_map _ _ (fun o => gravityBody_tagfix o) hplS
  have hply : (playerPhase jump move (gravityPhase (senseAll objs))).getD i default
      = objs.getD i default := by
    rw [playerPhase_fixed_getD jump move _ i hplG (by rw [hg]; exact h), hg]
  have hv : (midTick jump move objs).getD i default = objs.getD i default := by
    unfold midTick
    rw [velocityPhase_getD, hply, velocityBody_fixed _ h]
  have hfr : (frictionPhase (midTick jump move objs)).getD i default
      = objs.getD i default := by
    rw [frictionPhase_getD, hv, frictionBody_fixed _ _ h]
  have hpos : (positionPhase dt (frictionPhase (midTick jump move objs))).getD i default
      = objs.getD i default := by
    rw [positionPhase_getD, hfr, positionBody_fixed dt _ h]
  unfold tick
  rw [resolvePhase_getD, hpos, resolveBody_fixed _ _ _ _ h]

end MainPy

/-!
Pointwise lemmas about the phases of `MoveInAir.main_physics`.
-/

namespace MoveInAir

theorem senseBody_default9 (objs : List Solid) : senseBody objs default = default := rfl

theorem gravityBody_default9 (dt : ℚ) : gravityBody dt default = default := rfl

theorem clampBody_default : clampBody default = default := rfl

theorem moveBody_default (fuel : Nat) (dt : ℚ) (objs : List Solid) :
    moveBody fuel dt objs default = default := rfl

theorem senseAll_getD9 (objs : List Solid) (i : Nat) :
    (senseAll objs).getD i default = senseBody objs (objs.getD i default) :=
  getD_map_fix _ _ (senseBody_default9 objs) objs i

theorem gravityPhase_getD9 (dt : ℚ) (objs : List Solid) (i : Nat) :
    (gravityPhase dt objs).getD i default = gravityBody dt (objs.getD i default) :=
  getD_map_fix _ _ (gravityBody_default9 dt) objs i

theorem clampPhase_getD (objs : List Solid) (i : Nat) :
    (clampPhase objs).getD i default = clampBody (objs.getD i default) :=
  getD_map_fix _ _ clampBody_default objs i

theorem movePhase_getD (fuel : Nat) (dt : ℚ) (objs : List Solid) (i : Nat) :
    (movePhase fuel dt objs).getD i default = moveBody fuel dt objs (objs.getD i default) :=
  getD_map_fix _ _ (moveBody_default fuel dt objs) objs i

theorem senseBody_shape9 (objs : List Solid) (o : Solid) :
    ∃ a b c d, senseBody objs o
      = { o with cXPos := a, cXNeg := b, cYPos := c, cYNeg := d } := by
  unfold senseBody
  by_cases h : o.fixed
  · exact ⟨o.cXPos, o.cXNeg, o.cYPos, o.cYNeg, by rw [if_pos h]⟩
  · exact ⟨find_obstacle objs o 1 0, find_obstacle objs o (-1) 0,
      find_obstacle objs o 0 1, find_obstacle objs o 0 (-1), by rw [if_neg h]⟩

theorem gravityBody_shape9 (dt : ℚ) (o : Solid) :
    ∃ c, gravityBody dt o = { o with vy := c } := by
  unfold gravityBody
  by_cases h : o.fixed
  · exact ⟨o.vy, by rw [if_pos h]⟩
  · by_cases h2 : o.cYPos.isSome
    · exact ⟨o.vy, by rw [if_neg h, if_pos h2]⟩
    · exact ⟨o.vy + G * dt, by rw [if_neg h, if_neg h2]⟩

theorem playerBody_shape9 (jump : Bool) (move : ℚ) (pl : Solid) :
    ∃ a b, playerBody jump move pl = { pl with vx := a, vy := b } := by
  unfold playerBody
  by_cases hg : pl.cYPos.isSome
  · rw [if_pos hg]
    by_cases hj : jump
    · by_cases hm : move = 0
      · exact ⟨pl.vx * (1/10), pl.vy - JUMP_VEL, by rw [if_pos hm, if_pos hj]⟩
      · rw [if_neg hm, if_pos hj]
        split
        · exact ⟨MOVE_VEL * move, pl.vy - JUMP_VEL, rfl⟩
        · exact ⟨pl.vx, pl.vy - JUMP_VEL, rfl⟩
    · by_cases hm : move = 0
      · exact ⟨pl.vx * (1/10), pl.vy, by rw [if_pos hm, if_neg hj]⟩
      · rw [if_neg hm, if_neg hj]
        split
        · exact ⟨MOVE_VEL * move, pl.vy, rfl⟩
        · exact ⟨pl.vx, pl.vy, rfl⟩
  · rw [if_neg hg]
    by_cases hm : move = 0
    · exact ⟨pl.vx, pl.vy, by rw [if_pos hm]⟩
    · rw [if_neg hm]
      split
      · exact ⟨MOVE_VEL * move * MOVE_VEL_FACTOR_AIR, pl.vy, rfl⟩
      · exact ⟨pl.vx, pl.vy, rfl⟩

theorem clampXPos_shape9 (o : Solid) : ∃ a, clampXPos o = { o with vx := a } := by
  unfold clampXPos
  split
  · exact ⟨0, rfl⟩
  · exact ⟨o.vx, rfl⟩

theorem clampXNeg_shape9 (o : Solid) : ∃ a, clampXNeg o = { o with vx := a } := by
  unfold clampXNeg
  split
  · exact ⟨0, rfl⟩
  · exact ⟨o.vx, rfl⟩

theorem clampYPos_shape9 (o : Solid) : ∃ a, clampYPos o = { o with vy := a } := by
  unfold clampYPos
  split
  · exact ⟨0, rfl⟩
  · exact ⟨o.vy, rfl⟩

theorem clampYNeg_shape9 (o : Solid) : ∃ a, clampYNeg o = { o with vy := a } := by
  unfold clampYNeg
  split
  · exact ⟨0, rfl⟩
  · exact ⟨o.vy, rfl⟩

theorem clampBody_shape (o : Solid) :
    ∃ a b, clampBody o = { o with vx := a, vy := b } := by
  by_cases h : o.fixed
  · exact ⟨o.vx, o.vy, by unfold clampBody; rw [if_pos h]⟩
  · obtain ⟨a1, h1⟩ := clampXPos_shape9 o
    obtain ⟨a2, h2⟩ := clampXNeg_shape9 (clampXPos o)
    obtain ⟨a3, h3⟩ := clampYPos_shape9 (clampXNeg (clampXPos o))
    obtain ⟨a4, h4⟩ := clampYNeg_shape9 (clampYPos (clampXNeg (clampXPos o)))
    refine ⟨a2, a4, ?_⟩
    unfold clampBody
    rw [if_neg h, h4, h3, h2, h1]

theorem stepBack_proj (dt : ℚ) (o : Solid) :
    (stepBack dt o).vx = o.vx ∧ (stepBack dt o).vy = o.vy := ⟨rfl, rfl⟩

theorem resolveLoop_shape9 (fuel : Nat) (dt : ℚ) (o f : Solid) :
    ∃ a b, resolveLoop fuel dt o f = { o with x := a, y := b } := by
  induction fuel generalizing o with
  | zero => exact ⟨o.x, o.y, rfl⟩
  | succ n ih =>
      unfold resolveLoop
      by_cases hc : collide o f
      · obtain ⟨a, b, hab⟩ := ih (stepBack dt o)
        refine ⟨a, b, ?_⟩
        rw [if_pos hc, hab]
        rfl
      · exact ⟨o.x, o.y, by rw [if_neg hc]⟩

theorem resolvePair_shape (fuel : Nat) (dt : ℚ) (prev o f : Solid) :
    ∃ a b, resolvePair fuel dt prev o f = { o with x := a, y := b } := by
  unfold resolvePair
  split
  · exact resolveLoop_shape9 fuel dt o f
  · exact ⟨o.x, o.y, rfl⟩

theorem foldl_resolvePair_shape (fuel : Nat) (dt : ℚ) (prev : Solid) :
    ∀ (fs : List Solid) (o : Solid),
      ∃ a b, fs.foldl (fun acc f => resolvePair fuel dt prev acc f) o
        = { o with x := a, y := b }
  | [], o => ⟨o.x, o.y, rfl⟩
  | f :: fs, o => by
      obtain ⟨a, b, hab⟩ := resolvePair_shape fuel dt prev o f
      obtain ⟨c, d, hcd⟩ :=
        foldl_resolvePair_shape fuel dt prev fs (resolvePair fuel dt prev o f)
      refine ⟨c, d, ?_⟩
      rw [List.foldl_cons, hcd, hab]

theorem moveBody_shape (fuel : Nat) (dt : ℚ) (objs : List Solid) (o : Solid) :
    ∃ a b, moveBody fuel dt objs o = { o with x := a, y := b } := by
  unfold moveBody
  by_cases h : o.fixed
  · exact ⟨o.x, o.y, by rw [if_pos h]⟩
  · rw [if_neg h]
    obtain ⟨a, b, hab⟩ :=
      foldl_resolvePair_shape fuel dt o (objs.filter (fun f => f.fixed))
        { o with x := o.x + o.vx * dt, y := o.y + o.vy * dt }
    exact ⟨a, b, by rw [hab]⟩

theorem senseBody_tagfix9 (objs : List Solid) (o : Solid) :
    (senseBody objs o).tag = o.tag ∧ (senseBody objs o).fixed = o.fixed := by
  obtain ⟨a, b, c, d, h⟩ := senseBody_shape9 objs o
  rw [h]; exact ⟨rfl, rfl⟩

theorem gravityBody_tagfix9 (dt : ℚ) (o : Solid) :
    (gravityBody dt o).tag = o.tag ∧ (gravityBody dt o).fixed = o.fixed := by
  obtain ⟨c, h⟩ := gravityBody_shape9 dt o
  rw [h]; exact ⟨rfl, rfl⟩

end MoveInAir

namespace MoveInAir

theorem clampYPos_vx (o : Solid) : (clampYPos o).vx = o.vx := by
  obtain ⟨a, h⟩ := clampYPos_shape9 o
  rw [h]

theorem clampYNeg_vx (o : Solid) : (clampYNeg o).vx = o.vx := by
  obtain ⟨a, h⟩ := clampYNeg_shape9 o
  rw [h]

/-- With no `x_pos` contact and a nonnegative horizontal velocity, the
velocity-correction clamps leave `vx` unchanged. -/
theorem clampBody_vx (o : Solid) (hf : o.fixed = false) (hx : o.cXPos = none)
    (hv : ¬o.vx < 0) : (clampBody o).vx = o.vx := by
  unfold clampBody
  rw [if_neg (by rw [hf]; exact Bool.false_ne_true)]
  have h1 : clampXPos o = o := by
    unfold clampXPos
    rw [if_neg (by intro hc; rw [hx] at hc; exact Bool.false_ne_true hc.1)]
  have h2 : clampXNeg o = o := by
    unfold clampXNeg
    rw [if_neg (by intro hc; exact hv hc.2)]
  rw [h1, h2, clampYNeg_vx, clampYPos_vx]

theorem gravityBody_grounded (dt : ℚ) (o : Solid) (h2 : o.cYPos.isSome = true) :
    gravityBody dt o = o := by
  unfold gravityBody
  by_cases h : o.fixed
  · rw [if_pos h]
  · rw [if_neg h, if_pos h2]

/-- The grounded move branch: when a move is scheduled and the current
velocity is below the target (or points the other way), `vx` is set to
`MOVE_VEL * move`, whatever the jump flag. -/
theorem playerBody_grounded_move (jump : Bool) (move : ℚ) (pl : Solid)
    (hg : pl.cYPos.isSome = true) (hm : ¬move = 0)
    (hv : pl.vx * (MOVE_VEL * move) ≤ 0 ∨ |pl.vx| < |MOVE_VEL * move|) :
    (playerBody jump move pl).vx = MOVE_VEL * move := by
  unfold playerBody
  rw [if_pos hg]
  by_cases hj : jump
  · rw [if_pos hj, if_neg hm]
    split
    · rfl
    next hc => exact absurd hv hc
  · rw [if_neg hj, if_neg hm]
    split
    · rfl
    next hc => exact absurd hv hc

/-- The player lookup index is unchanged by the sensing and gravity
phases, which never write tags. -/
theorem firstIdx_player_stable (dt : ℚ) (objs : List Solid) :
    firstIdxP isPlayerTag (gravityPhase dt (senseAll objs))
      = firstIdxP isPlayerTag objs := by
  unfold gravityPhase senseAll
  rw [firstIdxP_map _ _
      (fun o => by unfold isPlayerTag; rw [(gravityBody_tagfix9 dt o).1])]
  rw [firstIdxP_map _ _
      (fun o => by unfold isPlayerTag; rw [(senseBody_tagfix9 objs o).1])]

theorem movePhase_vx (fuel : Nat) (dt : ℚ) (objs : List Solid) (i : Nat) :
    ((movePhase fuel dt objs).getD i default).vx = ((objs.getD i default)).vx := by
  rw [movePhase_getD]
  obtain ⟨a, b, h⟩ := moveBody_shape fuel dt objs (objs.getD i default)
  rw [h]

end MoveInAir

namespace MainPy

theorem resolveLoop_not_collide (fuel : Nat) (dt : ℚ) (o f : Solid)
    (h : collide o f = false) : resolveLoop fuel dt o f = o := by
  cases fuel with
  | zero => rfl
  | succ n =>
      unfold resolveLoop
      rw [if_neg (by rw [h]; exact Bool.false_ne_true)]

theorem resolveOne_bridge_skip (fuel : Nat) (dt : ℚ) (o f : Solid)
    (htag : f.tag = "bridge") (hvy : o.vy ≤ 0) : resolveOne fuel dt o f = o := by
  unfold resolveOne
  rw [if_pos (by simp [htag, hvy])]

theorem resolveOne_not_collide (fuel : Nat) (dt : ℚ) (o f : Solid)
    (h : collide o f = false) : resolveOne fuel dt o f = o := by
  unfold resolveOne
  split
  · rfl
  · exact resolveLoop_not_collide fuel dt o f h

theorem resolveLoop_succ (fuel : Nat) (dt : ℚ) (o f : Solid) :
    resolveLoop (fuel + 1) dt o f
      = if collide o f then resolveLoop fuel dt (stepBack dt o) f else o := rfl

theorem resolveOne_step (fuel : Nat) (dt : ℚ) (o f : Solid)
    (hc : collide o f = true) (hskip : ¬(f.tag = "bridge" ∧ o.vy ≤ 0)) :
    resolveOne (fuel + 1) dt o f = resolveLoop fuel dt (stepBack dt o) f := by
  unfold resolveOne
  rw [if_neg (by simp only [Bool.and_eq_true, beq_iff_eq, decide_eq_true_eq]; exact hskip)]
  rw [resolveLoop_succ, if_pos hc]

end MainPy

namespace MoveInAir

theorem resolveLoop_not_collide9 (fuel : Nat) (dt : ℚ) (o f : Solid)
    (h : collide o f = false) : resolveLoop fuel dt o f = o := by
  cases fuel with
  | zero => rfl
  | succ n =>
      unfold resolveLoop
      rw [if_neg (by rw [h]; exact Bool.false_ne_true)]

theorem resolvePair_skip (fuel : Nat) (dt : ℚ) (prev o f : Solid)
    (h : collide prev f = true ∨ collide o f = false) :
    resolvePair fuel dt prev o f = o := by
  unfold resolvePair
  rcases h with h | h
  · rw [if_neg (by simp [h])]
  · split
    next hc =>
      rw [Bool.and_eq_true] at hc
      rw [h] at hc
      exact absurd hc.2 Bool.false_ne_true
    · rfl

theorem resolveLoop_succ9 (fuel : Nat) (dt : ℚ) (o f : Solid) :
    resolveLoop (fuel + 1) dt o f
      = if collide o f then resolveLoop fuel dt (stepBack dt o) f else o := rfl

theorem resolvePair_step (fuel : Nat) (dt : ℚ) (prev o f : Solid)
    (hprev : collide prev f = false) (hc : collide o f = true) :
    resolvePair (fuel + 1) dt prev o f = resolveLoop fuel dt (stepBack dt o) f := by
  unfold resolvePair
  rw [if_pos (by simp [hprev, hc])]
  rw [resolveLoop_succ9, if_pos hc]

end MoveInAir

/-!
Claim theorems, counterexamples and witnesses.
-/

set_option maxRecDepth 100000

namespace MainPy

/-- C1 (counterexample): with `vy = -1` the sensor is probing along
the positive x-axis — not the upward direction — yet a bridge is
excluded from candidacy while a block with the same geometry is
found.  This contradicts the claim that the exclusion happens only
when probing the y-axis with `sign = -1`. -/
theorem C1_counterexample :
    mvUp.vy < 0
    ∧ find_obstacle [bridgeRight] mvUp Axis.x 1 = none
    ∧ find_obstacle [blockRight] mvUp Axis.x 1 = some 0
    ∧ bridgeRight.x = blockRight.x ∧ bridgeRight.y = blockRight.y
    ∧ bridgeRight.w = blockRight.w ∧ bridgeRight.h = blockRight.h := by
  refine ⟨?_, ?_, ?_, ?_, ?_, ?_, ?_⟩ <;> with_unfolding_all decide

/-- C1 (amended): `find_obstacle` excludes bridges from candidacy
whenever the probed body's vertical velocity is negative, regardless
of the probed axis and sign; whenever the vertical velocity is `≥ 0`,
bridges are candidates exactly like blocks (the search coincides with
the one that ignores tags). -/
theorem C1_bridge_rule (objs : List Solid) (obj : Solid) (axis : Axis) (sign : ℚ) :
    (obj.vy < 0 → ∀ i, find_obstacle objs obj axis sign = some i →
      (objs.getD i default).tag ≠ "bridge")
    ∧ (0 ≤ obj.vy →
      find_obstacle objs obj axis sign = find_obstacle_any objs obj axis sign) := by
  constructor
  · intro hneg i hfind
    have hpred := firstIdxP_pred _ default objs i hfind
    simp only [Bool.and_eq_true, Bool.not_eq_true'] at hpred
    have hd : decide (obj.vy < 0) = true := decide_eq_true hneg
    rw [hd, Bool.and_true] at hpred
    intro htag
    rw [htag] at hpred
    simp at hpred
  · intro hnonneg
    apply firstIdxP_congr
    intro f
    have hd : decide (obj.vy < 0) = false := decide_eq_false (not_lt.2 hnonneg)
    rw [hd]
    simp

/-- C1 (witness): a body moving up past a bridge-plus-block pile finds
the block and never the bridge; a body with `vy = 0` senses exactly as
if bridges were blocks. -/
theorem C1_bridge_rule_witness :
    (([bridgeRight, blockRight].getD 1 (default : Solid)).tag ≠ "bridge")
    ∧ find_obstacle [bridgeRight] mvLevel Axis.x 1
      = find_obstacle_any [bridgeRight] mvLevel Axis.x 1 :=
  ⟨(C1_bridge_rule [bridgeRight, blockRight] mvUp Axis.x 1).1
      (by with_unfolding_all decide) 1 (by with_unfolding_all decide),
   (C1_bridge_rule [bridgeRight] mvLevel Axis.x 1).2 (by with_unfolding_all decide)⟩

/-- C3 (failing input): a movable body overlapping a block with
exactly zero velocity.  The backward step subtracts `vx·Δt·FACTOR = 0`
from each coordinate, so the body never changes and the overlap
persists for every iteration count: the `while` loop of `main_physics`
spins forever, and no `ResolverDivergence` error exists in the code. -/
theorem C3_zero_velocity_spins :
    collide mvStuck blkWide = true
    ∧ mvStuck.vx = 0 ∧ mvStuck.vy = 0
    ∧ ∀ fuel : Nat, resolveLoop fuel 1 mvStuck blkWide = mvStuck := by
  refine ⟨by with_unfolding_all decide, by with_unfolding_all decide,
    by with_unfolding_all decide, ?_⟩
  intro fuel
  induction fuel with
  | zero => rfl
  | succ n ih =>
      rw [resolveLoop_succ, if_pos (by with_unfolding_all decide)]
      have hstep : stepBack 1 mvStuck = mvStuck := by with_unfolding_all decide
      rw [hstep, ih]

/-- C8 (failing input): a body with `m = 0` is representable and its
construction stores the zero mass unchecked — the `Solid` dataclass of
`src/main.py` performs no validation, so nothing prevents the
non-positive mass from reaching the integrator's `fx / m`. -/
theorem C8_mass_unchecked :
    zeroMassBody.m ≤ 0 ∧ zeroMassBody.m = 0 ∧ zeroMassBody.fixed = false
    ∧ zeroMassBody.fx = 5 := by
  refine ⟨?_, ?_, ?_, ?_⟩ <;> with_unfolding_all decide

/-- C10: the penetration-resolution phase can change only the `x` and
`y` fields of a body — every other field is returned unchanged — and a
fixed body is returned completely unchanged. -/
theorem C10_resolver_frame (fuel : Nat) (dt : ℚ) (objs : List Solid) (i : Nat) :
    (∃ a b, (resolvePhase fuel dt objs).getD i default
      = { objs.getD i default with x := a, y := b })
    ∧ ((objs.getD i default).fixed = true →
      (resolvePhase fuel dt objs).getD i default = objs.getD i default) := by
  constructor
  · rw [resolvePhase_getD]
    exact resolveBody_shape fuel dt objs _
  · intro h
    rw [resolvePhase_getD]
    exact resolveBody_fixed _ _ _ _ h

/-- C10 (witness): the fixed block of the overlap world is untouched
by the resolution phase. -/
theorem C10_resolver_frame_witness :
    (resolvePhase 5 1 wOverlap).getD 1 default = wOverlap.getD 1 default :=
  (C10_resolver_frame 5 1 wOverlap 1).2 (by with_unfolding_all decide)

end MainPy

/-- C7 (counterexample): two bodies whose rectangles touch exactly
along an edge.  The claim says `collide` is strict, so touching bodies
do not overlap; but the `collide` of `src/main_9_move_in_air.py` uses
`≤` and reports them as overlapping. -/
theorem C7_counterexample :
    MoveInAir.collide touchA touchB = true
    ∧ ¬ MoveInAir.overlapsSpecStrict touchA touchB := by
  constructor
  · with_unfolding_all decide
  · unfold MoveInAir.overlapsSpecStrict
    with_unfolding_all decide

/-- C7 (amended): the `collide` of `src/main.py` is exactly the strict
overlap formula and is symmetric; the `collide` of
`src/main_9_move_in_air.py` is exactly the inclusive (`≤`) overlap
formula and is symmetric.  Exactly touching bodies overlap under the
latter but not the former. -/
theorem C7_collide_characterization :
    (∀ a b : MainPy.Solid,
      (MainPy.collide a b = true ↔ MainPy.overlapsSpecStrict a b)
      ∧ MainPy.collide a b = MainPy.collide b a)
    ∧ (∀ a b : MoveInAir.Solid,
      (MoveInAir.collide a b = true ↔ MoveInAir.overlapsSpecIncl a b)
      ∧ MoveInAir.collide a b = MoveInAir.collide b a) := by
  constructor
  · intro a b
    constructor
    · simp [MainPy.collide, MainPy.overlapsSpecStrict, Bool.and_eq_true,
        decide_eq_true_eq]
    · simp only [MainPy.collide]
      rw [abs_sub_comm (a.x + a.w / 2), abs_sub_comm (a.y + a.h / 2),
        add_comm a.w, add_comm a.h]
  · intro a b
    constructor
    · simp [MoveInAir.collide, MoveInAir.overlapsSpecIncl, Bool.and_eq_true,
        decide_eq_true_eq]
    · simp only [MoveInAir.collide]
      rw [abs_sub_comm (a.x + a.w / 2), abs_sub_comm (a.y + a.h / 2),
        add_comm a.w, add_comm a.h]

/-- C2 (counterexample): in `src/main.py` a body that already
overlapped the block before the position update is still stepped
backward by the resolution phase (there is no pre-update overlap
check); and in `src/main_9_move_in_air.py` a body sliding
horizontally (`vy ≤ 0`) into a bridge is stepped backward (there is no
bridge exception). -/
theorem C2_counterexample :
    (MainPy.collide mvInside blkWide = true
     ∧ MainPy.collide (wOverlapPost.getD 0 default) blkWide = true
     ∧ ((MainPy.resolvePhase 600 1 wOverlapPost).getD 0 default).x
        ≠ (wOverlapPost.getD 0 default).x)
    ∧ (MoveInAir.collide mvSlide bridgeNine = false
       ∧ mvSlide.vy ≤ 0
       ∧ bridgeNine.tag = "bridge"
       ∧ ((MoveInAir.movePhase 200 1 wSlide).getD 0 default).x
          ≠ mvSlide.x + mvSlide.vx * 1) := by
  refine ⟨⟨?_, ?_, ?_⟩, ?_, ?_, ?_, ?_⟩ <;> with_unfolding_all decide

/-- C2 (amended): in `src/main.py` the backward-stepping correction
for a pair is skipped exactly when the fixed body is a bridge with the
mover's `vy ≤ 0` or when the pair does not currently overlap — the
pre-update state plays no role; in `src/main_9_move_in_air.py` it is
skipped exactly when the body already overlapped the fixed body before
the update or does not overlap it after — bridges get no exception. -/
theorem C2_resolver_guards :
    (∀ (fuel : Nat) (dt : ℚ) (o f : MainPy.Solid),
      f.tag = "bridge" → o.vy ≤ 0 → MainPy.resolveOne fuel dt o f = o)
    ∧ (∀ (fuel : Nat) (dt : ℚ) (o f : MainPy.Solid),
      MainPy.collide o f = false → MainPy.resolveOne fuel dt o f = o)
    ∧ (∀ (fuel : Nat) (dt : ℚ) (o f : MainPy.Solid),
      MainPy.collide o f = true → ¬(f.tag = "bridge" ∧ o.vy ≤ 0) →
      MainPy.resolveOne (fuel + 1) dt o f
        = MainPy.resolveLoop fuel dt (MainPy.stepBack dt o) f)
    ∧ (∀ (fuel : Nat) (dt : ℚ) (prev o f : MoveInAir.Solid),
      MoveInAir.collide prev f = true ∨ MoveInAir.collide o f = false →
      MoveInAir.resolvePair fuel dt prev o f = o)
    ∧ (∀ (fuel : Nat) (dt : ℚ) (prev o f : MoveInAir.Solid),
      MoveInAir.collide prev f = false → MoveInAir.collide o f = true →
      MoveInAir.resolvePair (fuel + 1) dt prev o f
        = MoveInAir.resolveLoop fuel dt (MoveInAir.stepBack dt o) f) :=
  ⟨fun fuel dt o f htag hvy => MainPy.resolveOne_bridge_skip fuel dt o f htag hvy,
   fun fuel dt o f h => MainPy.resolveOne_not_collide fuel dt o f h,
   fun fuel dt o f hc hskip => MainPy.resolveOne_step fuel dt o f hc hskip,
   fun fuel dt prev o f h => MoveInAir.resolvePair_skip fuel dt prev o f h,
   fun fuel dt prev o f hprev hc => MoveInAir.resolvePair_step fuel dt prev o f hprev hc⟩

/-- C2 (witness): each guard of the amended statement exercised on a
concrete configuration. -/
theorem C2_resolver_guards_witness :
    MainPy.resolveOne 5 1 mvStuck bridgeRight = mvStuck
    ∧ MainPy.resolveOne 7 1 mvUp blkWide = mvUp
    ∧ MainPy.resolveOne 4 1 mvStuck blkWide
      = MainPy.resolveLoop 3 1 (MainPy.stepBack 1 mvStuck) blkWide
    ∧ MoveInAir.resolvePair 5 1 movedSlide mvSlide bridgeNine = mvSlide
    ∧ MoveInAir.resolvePair 5 1 mvSlide movedSlide bridgeNine
      = MoveInAir.resolveLoop 4 1 (MoveInAir.stepBack 1 movedSlide) bridgeNine :=
  ⟨C2_resolver_guards.1 5 1 mvStuck bridgeRight (by with_unfolding_all decide)
      (by with_unfolding_all decide),
   C2_resolver_guards.2.1 7 1 mvUp blkWide (by with_unfolding_all decide),
   C2_resolver_guards.2.2.1 3 1 mvStuck blkWide (by with_unfolding_all decide)
      (by with_unfolding_all decide),
   C2_resolver_guards.2.2.2.1 5 1 movedSlide mvSlide bridgeNine
      (Or.inl (by with_unfolding_all decide)),
   C2_resolver_guards.2.2.2.2 4 1 mvSlide movedSlide bridgeNine
      (by with_unfolding_all decide) (by with_unfolding_all decide)⟩

namespace MainPy

theorem firstSome_some (j : Nat) (b : Option Nat) : firstSome (some j) b = some j := rfl

theorem firstSome_none (b : Option Nat) : firstSome none b = b := rfl

theorem frictionBody_vx (objs : List Solid) (o : Solid) (hf : o.fixed = false) :
    (frictionBody objs o).vx
      = match firstSome o.sYPos o.sYNeg with
        | some j => o.vx * (1 - (objs.getD j default).friction_x)
        | none => o.vx := by
  unfold frictionBody
  rw [if_neg (by rw [hf]; exact Bool.false_ne_true)]
  cases hm1 : firstSome o.sYPos o.sYNeg with
  | none =>
      cases hm2 : firstSome o.sXPos o.sXNeg with
      | none => simp only [hm1, hm2]
      | some k => simp only [hm1, hm2]
  | some j =>
      cases hm2 : firstSome o.sXPos o.sXNeg with
      | none => simp only [hm1, hm2]
      | some k => simp only [hm1, hm2]

theorem frictionBody_vy (objs : List Solid) (o : Solid) (hf : o.fixed = false) :
    (frictionBody objs o).vy
      = match firstSome o.sXPos o.sXNeg with
        | some j => o.vy * (1 - (objs.getD j default).friction_y)
        | none => o.vy := by
  unfold frictionBody
  rw [if_neg (by rw [hf]; exact Bool.false_ne_true)]
  cases hm1 : firstSome o.sYPos o.sYNeg with
  | none =>
      cases hm2 : firstSome o.sXPos o.sXNeg with
      | none => simp only [hm1, hm2]
      | some k => simp only [hm1, hm2]
  | some j =>
      cases hm2 : firstSome o.sXPos o.sXNeg with
      | none => simp only [hm1, hm2]
      | some k => simp only [hm1, hm2]

/-- C4: in the friction phase, `vx` is multiplied exactly once by
`1 - friction_x` of the `Y_POS` contact when that slot is set (even if
`Y_NEG` is also set), of the `Y_NEG` contact when only that one is
set, and is untouched otherwise; symmetrically `vy` with the `X_POS` /
`X_NEG` slots and `friction_y`. -/
theorem C4_friction_once (objs : List Solid) (i : Nat)
    (hmov : (objs.getD i default).fixed = false) :
    (∀ j, (objs.getD i default).sYPos = some j →
      ((frictionPhase objs).getD i default).vx
        = (objs.getD i default).vx * (1 - (objs.getD j default).friction_x))
    ∧ ((objs.getD i default).sYPos = none → ∀ j, (objs.getD i default).sYNeg = some j →
      ((frictionPhase objs).getD i default).vx
        = (objs.getD i default).vx * (1 - (objs.getD j default).friction_x))
    ∧ ((objs.getD i default).sYPos = none → (objs.getD i default).sYNeg = none →
      ((frictionPhase objs).getD i default).vx = (objs.getD i default).vx)
    ∧ (∀ j, (objs.getD i default).sXPos = some j →
      ((frictionPhase objs).getD i default).vy
        = (objs.getD i default).vy * (1 - (objs.getD j default).friction_y))
    ∧ ((objs.getD i default).sXPos = none → ∀ j, (objs.getD i default).sXNeg = some j →
      ((frictionPhase objs).getD i default).vy
        = (objs.getD i default).vy * (1 - (objs.getD j default).friction_y))
    ∧ ((objs.getD i default).sXPos = none → (objs.getD i default).sXNeg = none →
      ((frictionPhase objs).getD i default).vy = (objs.getD i default).vy) := by
  refine ⟨?_, ?_, ?_, ?_, ?_, ?_⟩
  · intro j hj
    rw [frictionPhase_getD, frictionBody_vx objs _ hmov, hj, firstSome_some]
  · intro hn j hj
    rw [frictionPhase_getD, frictionBody_vx objs _ hmov, hn, firstSome_none, hj]
  · intro hn1 hn2
    rw [frictionPhase_getD, frictionBody_vx objs _ hmov, hn1, firstSome_none, hn2]
  · intro j hj
    rw [frictionPhase_getD, frictionBody_vy objs _ hmov, hj, firstSome_some]
  · intro hn j hj
    rw [frictionPhase_getD, frictionBody_vy objs _ hmov, hn, firstSome_none, hj]
  · intro hn1 hn2
    rw [frictionPhase_getD, frictionBody_vy objs _ hmov, hn1, firstSome_none, hn2]

/-- C4 (witness): a body with `Y_POS`, `Y_NEG` and `X_POS` contacts
set is damped using the `Y_POS` body's `friction_x` (half) and the
`X_POS` body's `friction_y` (a third): `8 → 4` and `6 → 4`. -/
theorem C4_friction_once_witness :
    ((frictionPhase wRub).getD 0 default).vx = 4
    ∧ ((frictionPhase wRub).getD 0 default).vy = 4 := by
  constructor
  · rw [(C4_friction_once wRub 0 (by with_unfolding_all decide)).1 1
        (by with_unfolding_all decide)]
    with_unfolding_all decide
  · rw [(C4_friction_once wRub 0 (by with_unfolding_all decide)).2.2.2.1 2
        (by with_unfolding_all decide)]
    with_unfolding_all decide

end MainPy

namespace MainPy

/-- C5: for a movable body whose sensing pass set a contact slot, the
velocity component pointing into that contact is on the correct side
of zero at the end of the velocity clamps and still at the end of the
tick (friction with coefficients in `[0,1]` preserves the side, and
the position and resolution phases never change velocities). -/
theorem C5_contact_clamps (objs : List Solid) (jump : Bool) (move dt : ℚ)
    (fuel : Nat) (i : Nat)
    (hfr : ∀ b ∈ objs, 0 ≤ b.friction_x ∧ b.friction_x ≤ 1
      ∧ 0 ≤ b.friction_y ∧ b.friction_y ≤ 1)
    (hmov : (objs.getD i default).fixed = false) :
    (((senseAll objs).getD i default).sXPos.isSome = true →
      ((midTick jump move objs).getD i default).vx ≤ 0
      ∧ ((tick fuel jump move dt objs).getD i default).vx ≤ 0)
    ∧ (((senseAll objs).getD i default).sXNeg.isSome = true →
      0 ≤ ((midTick jump move objs).getD i default).vx
      ∧ 0 ≤ ((tick fuel jump move dt objs).getD i default).vx)
    ∧ (((senseAll objs).getD i default).sYPos.isSome = true →
      ((midTick jump move objs).getD i default).vy ≤ 0
      ∧ ((tick fuel jump move dt objs).getD i default).vy ≤ 0)
    ∧ (((senseAll objs).getD i default).sYNeg.isSome = true →
      0 ≤ ((midTick jump move objs).getD i default).vy
      ∧ 0 ≤ ((tick fuel jump move dt objs).getD i default).vy) := by
  have hpre := preVel_proj jump move objs i
  have hsfix : ((senseAll objs).getD i default).fixed = false := by
    rw [senseAll_getD, (senseBody_tagfix objs _).2]
    exact hmov
  have hPfix : ((playerPhase jump move (gravityPhase (senseAll objs))).getD i
      default).fixed = false := by
    rw [hpre.2.2.1]
    exact hsfix
  have hmid : (midTick jump move objs).getD i default
      = velocityBody ((playerPhase jump move (gravityPhase (senseAll objs))).getD i
          default) := by
    unfold midTick
    exact velocityPhase_getD _ i
  have hcl := velocityBody_clamps _ hPfix
  have hbounds : ∀ k : Nat,
      0 ≤ ((midTick jump move objs).getD k default).friction_x
      ∧ ((midTick jump move objs).getD k default).friction_x ≤ 1
      ∧ 0 ≤ ((midTick jump move objs).getD k default).friction_y
      ∧ ((midTick jump move objs).getD k default).friction_y ≤ 1 := by
    intro k
    have hmf := midTick_frictions jump move objs k
    have hb := frBounds_getD objs hfr k
    rw [hmf.1, hmf.2]
    exact hb
  have hsign := frictionBody_sign (midTick jump move objs)
    ((midTick jump move objs).getD i default) hbounds
  have htickvx : ((tick fuel jump move dt objs).getD i default).vx
      = ((frictionPhase (midTick jump move objs)).getD i default).vx := by
    unfold tick
    exact (postVel_vel fuel dt _ i).1
  have htickvy : ((tick fuel jump move dt objs).getD i default).vy
      = ((frictionPhase (midTick jump move objs)).getD i default).vy := by
    unfold tick
    exact (postVel_vel fuel dt _ i).2
  have hfrB : (frictionPhase (midTick jump move objs)).getD i default
      = frictionBody (midTick jump move objs)
          ((midTick jump move objs).getD i default) :=
    frictionPhase_getD _ i
  refine ⟨?_, ?_, ?_, ?_⟩
  · intro hslot
    have h1 : ((midTick jump move objs).getD i default).vx ≤ 0 := by
      rw [hmid]
      exact hcl.1 (by rw [hpre.2.2.2.1]; exact hslot)
    exact ⟨h1, by rw [htickvx, hfrB]; exact hsign.1 h1⟩
  · intro hslot
    have h1 : 0 ≤ ((midTick jump move objs).getD i default).vx := by
      rw [hmid]
      exact hcl.2.1 (by rw [hpre.2.2.2.2.1]; exact hslot)
    exact ⟨h1, by rw [htickvx, hfrB]; exact hsign.2.1 h1⟩
  · intro hslot
    have h1 : ((midTick jump move objs).getD i default).vy ≤ 0 := by
      rw [hmid]
      exact hcl.2.2.1 (by rw [hpre.2.2.2.2.2.1]; exact hslot)
    exact ⟨h1, by rw [htickvy, hfrB]; exact hsign.2.2.1 h1⟩
  · intro hslot
    have h1 : 0 ≤ ((midTick jump move objs).getD i default).vy := by
      rw [hmid]
      exact hcl.2.2.2 (by rw [hpre.2.2.2.2.2.2.1]; exact hslot)
    exact ⟨h1, by rw [htickvy, hfrB]; exact hsign.2.2.2 h1⟩

/-- C5 (witness): the player beside a wall gets its `X_POS` slot set
by sensing, and its `vx` is `≤ 0` both after the clamps and at the end
of the tick. -/
theorem C5_contact_clamps_witness :
    ((senseAll wCornerM).getD 0 default).sXPos.isSome = true
    ∧ ((midTick false 0 wCornerM).getD 0 default).vx ≤ 0
    ∧ ((tick 100 false 0 (1/100) wCornerM).getD 0 default).vx ≤ 0 := by
  have hslot : ((senseAll wCornerM).getD 0 default).sXPos.isSome = true := by
    with_unfolding_all decide
  have h := (C5_contact_clamps wCornerM false 0 (1/100) 100 0
    (by with_unfolding_all decide) (by with_unfolding_all decide)).1 hslot
  exact ⟨hslot, h.1, h.2⟩

/-- C6: a fixed body is completely unchanged — position, velocity and
every other field — by any number of physics ticks with arbitrary
intents, pending forces and time deltas, provided every player-tagged
body in the world is movable (as in the constructed stage). -/
theorem C6_fixed_inert (objs : List Solid) (hpl : playersMovable objs)
    (n fuel : Nat) (jumps : Nat → Bool) (moves dts : Nat → ℚ) (i : Nat)
    (hfix : (objs.getD i default).fixed = true) :
    (tickN fuel jumps moves dts n objs).getD i default = objs.getD i default := by
  induction n generalizing objs with
  | zero => rfl
  | succ k ih =>
      have hone := tick_fixed_getD fuel (jumps k) (moves k) (dts k) objs i hpl hfix
      calc (tickN fuel jumps moves dts (k + 1) objs).getD i default
          = (tickN fuel jumps moves dts k
              (tick fuel (jumps k) (moves k) (dts k) objs)).getD i default := rfl
        _ = (tick fuel (jumps k) (moves k) (dts k) objs).getD i default :=
            ih _ (playersMovable_tick fuel (jumps k) (moves k) (dts k) objs hpl)
              (by rw [hone]; exact hfix)
        _ = objs.getD i default := hone

/-- C6 (witness): two ticks with jump and move intents leave the fixed
wall of the corner world exactly as it was. -/
theorem C6_fixed_inert_witness :
    (tickN 100 (fun _ => true) (fun _ => 1) (fun _ => 1/100) 2 wCornerM).getD 1 default
      = wCornerM.getD 1 default :=
  C6_fixed_inert wCornerM
    (by unfold playersMovable; with_unfolding_all decide) 2 100
    (fun _ => true) (fun _ => 1) (fun _ => 1/100) 1 (by with_unfolding_all decide)

end MainPy

namespace MoveInAir

/-- C9 (counterexample): a grounded player standing against a wall on
its `x_pos` side, with `vx = 0` and move intent `+1`, satisfies every
premise of the claim, yet after one tick `vx = 0 ≠ 100`: the velocity
correction clamps the freshly set move velocity back to zero. -/
theorem C9_counterexample :
    ((senseAll wWalled).getD 0 default).cYPos.isSome = true
    ∧ |((senseAll wWalled).getD 0 default).vx| < MOVE_VEL
    ∧ ((senseAll wWalled).getD 0 default).cXPos.isSome = true
    ∧ ((tick 100 false 1 (1/50) wWalled).getD 0 default).vx = 0
    ∧ (0 : ℚ) ≠ MOVE_VEL := by
  refine ⟨?_, ?_, ?_, ?_, ?_⟩ <;> with_unfolding_all decide

/-- C9 (amended): a grounded player (`y_pos` contact set by sensing)
with move intent `+1` whose `x_pos` contact slot is empty and whose
previous `vx` is below the target speed or points the other way ends
the tick with `vx = MOVE_VEL = 100`. -/
theorem C9_grounded_move (objs : List Solid) (jump : Bool) (dt : ℚ) (fuel : Nat)
    (p : Nat)
    (hp : firstIdxP isPlayerTag objs = some p)
    (hmov : ((senseAll objs).getD p default).fixed = false)
    (hg : ((senseAll objs).getD p default).cYPos.isSome = true)
    (hx : ((senseAll objs).getD p default).cXPos = none)
    (hv : ((senseAll objs).getD p default).vx * MOVE_VEL ≤ 0
      ∨ |((senseAll objs).getD p default).vx| < MOVE_VEL) :
    ((tick fuel jump 1 dt objs).getD p default).vx = MOVE_VEL := by
  have hgl : (gravityPhase dt (senseAll objs)).getD p default
      = (senseAll objs).getD p default := by
    rw [gravityPhase_getD9]
    exact gravityBody_grounded dt _ hg
  have hfind : firstIdxP isPlayerTag (gravityPhase dt (senseAll objs)) = some p := by
    rw [firstIdx_player_stable]
    exact hp
  have hlen0 := firstIdxP_lt_length _ _ _ hfind
  have hply : (playerPhase jump 1 (gravityPhase dt (senseAll objs))).getD p default
      = playerBody jump 1 ((senseAll objs).getD p default) := by
    unfold playerPhase
    simp only [hfind]
    rw [getD_set_eq _ _ _ _ hlen0, hgl]
  have hvcond : ((senseAll objs).getD p default).vx * (MOVE_VEL * 1) ≤ 0
      ∨ |((senseAll objs).getD p default).vx| < |MOVE_VEL * 1| := by
    have habs : |MOVE_VEL * (1:ℚ)| = MOVE_VEL := by
      rw [mul_one]
      exact abs_of_pos (by norm_num [MOVE_VEL])
    rcases hv with h | h
    · exact Or.inl (by rwa [mul_one])
    · exact Or.inr (by rwa [habs])
  have hvx1 : (playerBody jump 1 ((senseAll objs).getD p default)).vx = MOVE_VEL := by
    rw [playerBody_grounded_move jump 1 _ hg (by norm_num) hvcond, mul_one]
  obtain ⟨a, b, hsh⟩ := playerBody_shape9 jump 1 ((senseAll objs).getD p default)
  have hcl : ((clampPhase (playerPhase jump 1 (gravityPhase dt
      (senseAll objs)))).getD p default).vx = MOVE_VEL := by
    rw [clampPhase_getD, hply,
      clampBody_vx _ (by rw [hsh]; exact hmov) (by rw [hsh]; exact hx)
        (by rw [hvx1]; norm_num [MOVE_VEL])]
    exact hvx1
  unfold tick
  rw [movePhase_vx]
  exact hcl

/-- C9 (witness): the grounded player with free space to its right
reaches `vx = 100` in one tick from rest. -/
theorem C9_grounded_move_witness :
    ((tick 50 false 1 (1/60) wFree).getD 0 default).vx = MOVE_VEL :=
  C9_grounded_move wFree false (1/60) 50 0
    (by with_unfolding_all decide) (by with_unfolding_all decide)
    (by with_unfolding_all decide) (by with_unfolding_all decide)
    (Or.inr (by with_unfolding_all decide))

end MoveInAir

namespace MainPy

theorem collide_congr (a b f : Solid) (hx : a.x = b.x) (hy : a.y = b.y)
    (hw : a.w = b.w) (hh : a.h = b.h) : collide a f = collide b f := by
  unfold collide
  rw [hx, hy, hw, hh]

theorem stepBack_iterate (dt : ℚ) : ∀ (k : Nat) (o : Solid),
    ((stepBack dt)^[k] o).x = o.x - k * (o.vx * dt * COLLIDE_SOLVE_FACTOR)
    ∧ ((stepBack dt)^[k] o).y = o.y - k * (o.vy * dt * COLLIDE_SOLVE_FACTOR)
    ∧ ((stepBack dt)^[k] o).w = o.w ∧ ((stepBack dt)^[k] o).h = o.h
  | 0, o => by
      refine ⟨?_, ?_, rfl, rfl⟩ <;> simp
  | k + 1, o => by
      have ih := stepBack_iterate dt k (stepBack dt o)
      rw [Function.iterate_succ_apply]
      refine ⟨?_, ?_, ?_, ?_⟩
      · rw [ih.1]
        show o.x - o.vx * dt * COLLIDE_SOLVE_FACTOR
            - k * (o.vx * dt * COLLIDE_SOLVE_FACTOR) = _
        push_cast
        ring
      · rw [ih.2.1]
        show o.y - o.vy * dt * COLLIDE_SOLVE_FACTOR
            - k * (o.vy * dt * COLLIDE_SOLVE_FACTOR) = _
        push_cast
        ring
      · rw [ih.2.2.1]
        rfl
      · rw [ih.2.2.2]
        rfl

theorem resolveLoop_exits (dt : ℚ) (f : Solid) : ∀ (fuel k : Nat) (o : Solid),
    k ≤ fuel → collide ((stepBack dt)^[k] o) f = false →
    collide (resolveLoop fuel dt o f) f = false := by
  intro fuel
  induction fuel with
  | zero =>
      intro k o hk h
      have hk0 : k = 0 := Nat.le_zero.mp hk
      rw [hk0, Function.iterate_zero_apply] at h
      exact h
  | succ n ih =>
      intro k o hk h
      by_cases hc : collide o f = true
      · cases k with
        | zero =>
            rw [Function.iterate_zero_apply] at h
            rw [h] at hc
            exact absurd hc Bool.false_ne_true
        | succ kk =>
            rw [resolveLoop_succ, if_pos hc]
            apply ih kk (stepBack dt o) (Nat.le_of_succ_le_succ hk)
            rwa [← Function.iterate_succ_apply]
      · have hc2 : collide o f = false := by
          rw [Bool.not_eq_true] at hc
          exact hc
        rw [resolveLoop_succ, if_neg (by rw [hc2]; exact Bool.false_ne_true)]
        exact hc2

/-- Supporting fact for C3: when a position update pushes a body that
did not overlap a fixed body into overlap, the resolver's loop reaches
a non-overlapping state within `1 / COLLIDE_SOLVE_FACTOR = 500`
iterations, because 500 backward steps rewind the displacement
exactly. -/
theorem resolver_rewind_bound (dt : ℚ) (o f : Solid) (hmov : o.fixed = false)
    (hpre : collide o f = false) :
    collide (resolveLoop 500 dt (positionBody dt o) f) f = false := by
  apply resolveLoop_exits dt f 500 500 (positionBody dt o) (le_refl 500)
  have hpb : positionBody dt o = { o with x := o.x + o.vx * dt, y := o.y + o.vy * dt } := by
    unfold positionBody
    rw [if_neg (by rw [hmov]; exact Bool.false_ne_true)]
  have hit := stepBack_iterate dt 500 (positionBody dt o)
  have hx : ((stepBack dt)^[500] (positionBody dt o)).x = o.x := by
    rw [hit.1, hpb]
    show o.x + o.vx * dt - 500 * (o.vx * dt * COLLIDE_SOLVE_FACTOR) = o.x
    unfold COLLIDE_SOLVE_FACTOR
    ring
  have hy : ((stepBack dt)^[500] (positionBody dt o)).y = o.y := by
    rw [hit.2.1, hpb]
    show o.y + o.vy * dt - 500 * (o.vy * dt * COLLIDE_SOLVE_FACTOR) = o.y
    unfold COLLIDE_SOLVE_FACTOR
    ring
  have hw : ((stepBack dt)^[500] (positionBody dt o)).w = o.w := by
    rw [hit.2.2.1, hpb]
  have hh : ((stepBack dt)^[500] (positionBody dt o)).h = o.h := by
    rw [hit.2.2.2, hpb]
  rw [collide_congr _ o f hx hy hw hh]
  exact hpre

/-- Supporting witness: at the zero-velocity failing input of C3 the
bound hypothesis fails exactly because the body already overlaps. -/
theorem resolver_rewind_bound_witness :
    collide (resolveLoop 500 1 (positionBody 1 mvUp) blkWide) blkWide = false :=
  resolver_rewind_bound 1 mvUp blkWide (by with_unfolding_all decide)
    (by with_unfolding_all decide)

end MainPy
